import Mathlib

/-!
Verification development for the Customer_Price_Sending repository.

The core under verification is `src/verification_system.py` (customer store,
rule set, aggregator) and `src/audit_logging_v2.py` (audit log).  Python
values flowing through the duck-typed record dictionaries are modelled by the
dynamic type `PyVal`; Python exceptions are modelled by `PyErr` and fallible
code returns `Except PyErr _`.  Filesystem state is a parameter
`fs : String -> Option Int` mapping an existing path to its size.  Timestamps
are threaded as explicit string parameters (`datetime.now()` call sites) and
audit timestamps are modelled as integers with `datetime.fromisoformat`
acting as the identity on that representation.  Logging calls, `os.makedirs`
and file persistence (`save_database`, `_save_audit_log`) are I/O side
effects with no influence on the computed results and are not modelled.
Path joining is modelled with the posix separator.
-/

/-- Dynamic model of the Python values manipulated by the source:
`None`, booleans, integers, strings, lists and string-keyed dicts. -/
inductive PyVal where
  | none : PyVal
  | bool (b : Bool) : PyVal
  | int (n : Int) : PyVal
  | str (s : String) : PyVal
  | list (xs : List PyVal) : PyVal
  | dict (xs : List (String × PyVal)) : PyVal
deriving Repr

/-- Kinds of Python exceptions raised by the modelled code paths. -/
inductive PyErrKind where
  | indexError
  | keyError
  | typeError
  | attributeError
deriving Repr, DecidableEq

/-- A Python exception: a kind plus the `str(e)` message text. -/
structure PyErr where
  kind : PyErrKind
  msg : String
deriving Repr, DecidableEq

mutual
/-- Structural equality on dynamic values, modelling Python `==` on the
JSON-shaped data in play (`True == 1` included). -/
def PyVal.beq : PyVal → PyVal → Bool
  | .none, .none => true
  | .bool a, .bool b => a = b
  | .bool a, .int n => (if a then (1 : Int) else 0) = n
  | .int n, .bool a => n = (if a then (1 : Int) else 0)
  | .int a, .int b => a = b
  | .str a, .str b => a = b
  | .list a, .list b => PyVal.beqList a b
  | .dict a, .dict b => PyVal.beqDict a b
  | _, _ => false

/-- Elementwise list equality. -/
def PyVal.beqList : List PyVal → List PyVal → Bool
  | [], [] => true
  | a :: as, b :: bs => PyVal.beq a b && PyVal.beqList as bs
  | _, _ => false

/-- Pairwise dict-entry equality (our dicts never hold duplicate keys, so
ordered comparison of the entry lists agrees with Python dict equality for
the values produced by this code, which never reorders keys). -/
def PyVal.beqDict : List (String × PyVal) → List (String × PyVal) → Bool
  | [], [] => true
  | (k, v) :: as, (k2, v2) :: bs => k = k2 && PyVal.beq v v2 && PyVal.beqDict as bs
  | _, _ => false
end

/-- Python truthiness of a value. -/
def PyVal.truthy : PyVal → Bool
  | .none => false
  | .bool b => b
  | .int n => n ≠ 0
  | .str s => s ≠ ""
  | .list xs => !xs.isEmpty
  | .dict xs => !xs.isEmpty

mutual
/-- Python `repr` of a value (used by `str` on containers). -/
def PyVal.repr : PyVal → String
  | .none => "None"
  | .bool b => if b then "True" else "False"
  | .int n => toString n
  | .str s => s
  | .list xs => "[" ++ PyVal.reprList xs ++ "]"
  | .dict xs => "\x7b" ++ PyVal.reprDict xs ++ "\x7d"

/-- Comma-separated rendering of list elements. -/
def PyVal.reprList : List PyVal → String
  | [] => ""
  | [x] => PyVal.repr x
  | x :: y :: xs => PyVal.repr x ++ ", " ++ PyVal.reprList (y :: xs)

/-- Comma-separated rendering of dict entries. -/
def PyVal.reprDict : List (String × PyVal) → String
  | [] => ""
  | [kv] => kv.1 ++ ": " ++ PyVal.repr kv.2
  | kv :: kv2 :: xs => kv.1 ++ ": " ++ PyVal.repr kv.2 ++ ", " ++ PyVal.reprDict (kv2 :: xs)
end

/-- Python `str()` of a value, as interpolated by the f-strings in messages. -/
def pyStrOf : PyVal → String := PyVal.repr

/-- `value[key]` subscript access with a string key: first matching dict
entry, `KeyError` on a missing key, `TypeError` on non-dict receivers. -/
def pyGetItem (v : PyVal) (key : String) : Except PyErr PyVal :=
  match v with
  | .dict xs =>
      match xs.find? (fun kv => kv.1 = key) with
      | Option.some kv => Except.ok kv.2
      | Option.none => Except.error ⟨.keyError, key⟩
  | _ => Except.error ⟨.typeError, "value is not subscriptable by string " ++ key⟩

/-- `value.get(key, default)`: dict lookup with a default; `AttributeError`
on non-dict receivers (no `get` attribute). -/
def pyGet (v : PyVal) (key : String) (dflt : PyVal) : Except PyErr PyVal :=
  match v with
  | .dict xs =>
      match xs.find? (fun kv => kv.1 = key) with
      | Option.some kv => Except.ok kv.2
      | Option.none => Except.ok dflt
  | _ => Except.error ⟨.attributeError, "object has no attribute get"⟩

/-- `value[key] = x` on a dict: replace the entry in place if the key is
present, append it otherwise; `TypeError` on non-dict receivers. -/
def pySetItem (v : PyVal) (key : String) (x : PyVal) : Except PyErr PyVal :=
  match v with
  | .dict xs =>
      if xs.any (fun kv => kv.1 = key) then
        Except.ok (.dict (xs.map (fun kv => if kv.1 = key then (key, x) else kv)))
      else
        Except.ok (.dict (xs ++ [(key, x)]))
  | _ => Except.error ⟨.typeError, "object does not support item assignment"⟩

/-- Case mapping of Python `str.lower` (over the character list, so that it
evaluates inside the kernel). -/
def lowerStr (s : String) : String := String.mk (s.data.map Char.toLower)

/-- `value.lower()`: `AttributeError` unless the receiver is a string. -/
def pyLower (v : PyVal) : Except PyErr String :=
  match v with
  | .str s => Except.ok (lowerStr s)
  | _ => Except.error ⟨.attributeError, "object has no attribute lower"⟩

/-- Iteration (`for x in value`): lists yield elements, strings yield their
characters as one-character strings, dicts yield their keys; other values
raise `TypeError`. -/
def pyIter (v : PyVal) : Except PyErr (List PyVal) :=
  match v with
  | .list xs => Except.ok xs
  | .str s => Except.ok (s.data.map (fun c => .str (String.mk [c])))
  | .dict xs => Except.ok (xs.map (fun kv => .str kv.1))
  | _ => Except.error ⟨.typeError, "object is not iterable"⟩

/-- Whether the first list of characters leads the second. -/
def charsLead : List Char → List Char → Bool
  | [], _ => true
  | _ :: _, [] => false
  | a :: as, b :: bs => a = b && charsLead as bs

/-- Whether the second list of characters occurs inside the first. -/
def charsHasSub : List Char → List Char → Bool
  | [], needle => needle.isEmpty
  | c :: rest, needle => charsLead needle (c :: rest) || charsHasSub rest needle

/-- Python substring test `needle in hay` on strings. -/
def strContains (hay needle : String) : Bool :=
  charsHasSub hay.data needle.data

/-- Python `str.split(sep)` with a one-character separator: split at every
occurrence, keeping empty pieces (`acc` holds the current piece reversed). -/
def splitChars (sep : Char) : List Char → List Char → List String
  | [], acc => [String.mk acc.reverse]
  | c :: rest, acc =>
      if c = sep then String.mk acc.reverse :: splitChars sep rest []
      else splitChars sep rest (c :: acc)

/-- Python `s.split(sep)` for a one-character separator. -/
def pySplitChar (s : String) (sep : Char) : List String :=
  splitChars sep s.data []

/-- Whether a character list starts with a slash. -/
def headIsSlash : List Char → Bool
  | c :: _ => c = '/'
  | [] => false

/-- Whether a character list ends with a slash. -/
def lastIsSlash (cs : List Char) : Bool :=
  match cs.getLast? with
  | Option.some c => c = '/'
  | Option.none => false

/-- `os.path.join` restricted to string arguments (posix separator);
`TypeError` otherwise. -/
def pyJoinStr (a b : String) : String :=
  if headIsSlash b.data then b
  else if a = "" || lastIsSlash a.data then a ++ b
  else a ++ "/" ++ b

/-- `os.path.join` on dynamic values. -/
def pyJoin (a b : PyVal) : Except PyErr String :=
  match a, b with
  | .str x, .str y => Except.ok (pyJoinStr x y)
  | _, _ => Except.error ⟨.typeError, "os.path.join expects string path components"⟩

/-- `email.split('@')[1].lower()`: `AttributeError` on a non-string email,
`IndexError` when the split yields fewer than two parts. -/
def extractDomain (email : PyVal) : Except PyErr String :=
  match email with
  | .str s =>
      match (pySplitChar s '@').drop 1 with
      | [] => Except.error ⟨.indexError, "list index out of range"⟩
      | d :: _ => Except.ok (lowerStr d)
  | _ => Except.error ⟨.attributeError, "object has no attribute split"⟩

/-- Run a computation and convert the exception kinds selected by `handled`
into a fallback value, letting other exceptions propagate — the model of a
`try`/`except (..kinds..)` block. -/
def pyCatch {α : Type} (act : Except PyErr α) (handled : PyErrKind → Bool)
    (h : PyErr → α) : Except PyErr α :=
  match act with
  | Except.ok a => Except.ok a
  | Except.error e => if handled e.kind then Except.ok (h e) else Except.error e

/-- Severity levels of `VerificationLevel` in `verification_system.py`. -/
inductive VerificationLevel where
  | info
  | warning
  | error
  | critical
deriving Repr, DecidableEq, BEq

/-- `VerificationResult` dataclass: one rule evaluation.  `details` carries
the structured mapping attached by the source. -/
structure VerificationResult where
  check_name : String
  level : VerificationLevel
  passed : Bool
  message : String
  details : Option (List (String × PyVal))
deriving Repr

/-- `CustomerVerificationReport` dataclass.  The `timestamp` field
(`datetime.now()`) carries no information relevant to any property and is
omitted from the embedding. -/
structure CustomerVerificationReport where
  customer_id : PyVal
  company_name : PyVal
  email : PyVal
  recipient_name : PyVal
  attachment_file : PyVal
  verification_results : List VerificationResult
  overall_status : String
  can_send : Bool
deriving Repr

/-- Python `==` comparison of a dynamic value against a string (no value of
another type compares equal to a string). -/
def pyEqStr (v : PyVal) (s : String) : Bool :=
  match v with
  | .str t => t = s
  | _ => false

/-- Loop body of `get_customer_by_email_domain`: first customer whose
`email_domain` lowercases to the given domain. -/
def findCustomerByDomainLoop : List PyVal → String → Except PyErr (Option PyVal)
  | [], _ => Except.ok Option.none
  | c :: rest, d => do
      let ed ← pyGetItem c "email_domain"
      let edl ← pyLower ed
      if edl = d then pure (Option.some c) else findCustomerByDomainLoop rest d

/-- `CustomerDatabase.get_customer_by_email_domain`: extract the domain of
`email`, scan for the first matching record; `IndexError` and
`AttributeError` are converted to "not found", other exceptions propagate. -/
def get_customer_by_email_domain (customers : List PyVal) (email : PyVal) :
    Except PyErr (Option PyVal) :=
  pyCatch
    (do
      let d ← extractDomain email
      findCustomerByDomainLoop customers d)
    (fun k => k == .indexError || k == .attributeError)
    (fun _ => Option.none)

/-- `CustomerDatabase.get_customer_by_id`: first record whose `id` equals
the given id. -/
def get_customer_by_id : List PyVal → String → Except PyErr (Option PyVal)
  | [], _ => Except.ok Option.none
  | c :: rest, cid => do
      let idv ← pyGetItem c "id"
      if pyEqStr idv cid then pure (Option.some c) else get_customer_by_id rest cid

/-- `CustomerDatabase.is_email_authorized`: case-insensitive membership of
the email in the record's `email_addresses`. -/
def is_email_authorized (email : PyVal) (customer_record : PyVal) : Except PyErr Bool := do
  let el ← pyLower email
  let addrs ← pyGetItem customer_record "email_addresses"
  let items ← pyIter addrs
  let lowered ← items.mapM pyLower
  pure (lowered.contains el)

/-- `CustomerDatabase.delete_customer`: physically remove the first record
whose `id` matches, returning whether a record was removed together with
the resulting collection (the synchronous save is an I/O effect). -/
def delete_customer : List PyVal → String → Except PyErr (Bool × List PyVal)
  | [], _ => Except.ok (false, [])
  | c :: rest, cid => do
      let idv ← pyGetItem c "id"
      if pyEqStr idv cid then pure (true, rest)
      else do
        let r ← delete_customer rest cid
        pure (r.1, c :: r.2)

/-- `CustomerDatabase.update_customer`: replace the first record whose `id`
matches with `customer_data`, after stamping `id` and `updated_at`
(`datetime.now().isoformat()` is the threaded `now` string). -/
def update_customer : List PyVal → String → PyVal → String → Except PyErr (Bool × List PyVal)
  | [], _, _, _ => Except.ok (false, [])
  | c :: rest, cid, customer_data, now => do
      let idv ← pyGetItem c "id"
      if pyEqStr idv cid then do
        let nd1 ← pySetItem customer_data "id" (.str cid)
        let nd2 ← pySetItem nd1 "updated_at" (.str now)
        pure (true, nd2 :: rest)
      else do
        let r ← update_customer rest cid customer_data now
        pure (r.1, c :: r.2)

/-- `verify_domain_match`: the candidate email's domain must equal the
record's `email_domain`; `IndexError`, `AttributeError` and `KeyError` are
caught and become a critical failure. -/
def verify_domain_match (email customer_record : PyVal) : Except PyErr VerificationResult :=
  pyCatch
    (do
      let email_domain ← extractDomain email
      let edv ← pyGetItem customer_record "email_domain"
      let expected_domain ← pyLower edv
      if email_domain = expected_domain then
        pure { check_name := "domain_verification", level := .info, passed := true,
               message := "Domain verified: " ++ email_domain,
               details := Option.some [("email", email), ("expected_domain", .str expected_domain)] }
      else do
        let cname ← pyGetItem customer_record "company_name"
        pure { check_name := "domain_verification", level := .critical, passed := false,
               message := "CRITICAL: Domain mismatch - " ++ pyStrOf email ++
                 " not authorized for " ++ pyStrOf cname,
               details := Option.some [("email", email), ("email_domain", .str email_domain),
                 ("expected_domain", .str expected_domain), ("company", cname)] })
    (fun k => k == .indexError || k == .attributeError || k == .keyError)
    (fun e =>
      { check_name := "domain_verification", level := .critical, passed := false,
        message := "CRITICAL: Domain verification failed - " ++ e.msg,
        details := Option.some [("error", .str e.msg), ("email", email)] })

/-- `verify_email_authorization`: the email must be listed in the record's
`email_addresses`; no exception handling of its own. -/
def verify_email_authorization (email customer_record : PyVal) : Except PyErr VerificationResult := do
  let authorized ← is_email_authorized email customer_record
  if authorized then do
    let addrs ← pyGetItem customer_record "email_addresses"
    pure { check_name := "email_authorization", level := .info, passed := true,
           message := "Email authorized: " ++ pyStrOf email,
           details := Option.some [("email", email), ("authorized_emails", addrs)] }
  else do
    let cname ← pyGetItem customer_record "company_name"
    let addrs ← pyGetItem customer_record "email_addresses"
    pure { check_name := "email_authorization", level := .error, passed := false,
           message := "ERROR: Email " ++ pyStrOf email ++ " not in authorized list for " ++
             pyStrOf cname,
           details := Option.some [("email", email), ("authorized_emails", addrs),
             ("company", cname)] }

/-- `verify_pricing_file_exists`: look for the file at the path composed of
the record's `file_generation.file_path` and `current_filename` in the
filesystem snapshot `fs` (path to size); `KeyError` and `TypeError` are
caught and become an error-level failure. -/
def verify_pricing_file_exists (customer_record : PyVal) (fs : String → Option Int) :
    Except PyErr VerificationResult :=
  pyCatch
    (do
      let fg ← pyGetItem customer_record "file_generation"
      let file_path ← pyGetItem fg "file_path"
      let current_filename ← pyGetItem fg "current_filename"
      if !file_path.truthy || !current_filename.truthy then
        pure { check_name := "file_existence", level := .error, passed := false,
               message := "ERROR: File path or filename not specified",
               details := Option.some [("file_path", file_path), ("filename", current_filename)] }
      else do
        let full_path ← pyJoin file_path current_filename
        match fs full_path with
        | Option.some file_size =>
            pure { check_name := "file_existence", level := .info, passed := true,
                   message := "Pricing file verified: " ++ pyStrOf current_filename,
                   details := Option.some [("full_path", .str full_path),
                     ("file_size", .int file_size), ("file_exists", .bool true)] }
        | Option.none =>
            pure { check_name := "file_existence", level := .error, passed := false,
                   message := "ERROR: Pricing file not found: " ++ full_path,
                   details := Option.some [("full_path", .str full_path),
                     ("file_path", file_path), ("filename", current_filename),
                     ("file_exists", .bool false)] })
    (fun k => k == .keyError || k == .typeError)
    (fun e =>
      { check_name := "file_existence", level := .error, passed := false,
        message := "ERROR: File verification failed - " ++ e.msg,
        details := Option.some [("error", .str e.msg)] })

/-- `verify_filename_pattern`: the current filename should contain the
company name case-insensitively; only `KeyError` and `TypeError` are
caught (an `AttributeError` from `.lower()` propagates). -/
def verify_filename_pattern (customer_record : PyVal) : Except PyErr VerificationResult :=
  pyCatch
    (do
      let fg ← pyGetItem customer_record "file_generation"
      let expected_pattern ← pyGetItem fg "filename_pattern"
      let current_filename ← pyGetItem fg "current_filename"
      let company_name ← pyGetItem customer_record "company_name"
      let cl ← pyLower company_name
      let fl ← pyLower current_filename
      if strContains fl cl then
        pure { check_name := "filename_pattern", level := .info, passed := true,
               message := "Filename pattern verified: " ++ pyStrOf current_filename,
               details := Option.some [("filename", current_filename),
                 ("pattern", expected_pattern), ("company_name", company_name)] }
      else
        pure { check_name := "filename_pattern", level := .warning, passed := false,
               message := "WARNING: Filename may not match company - " ++ pyStrOf current_filename,
               details := Option.some [("filename", current_filename),
                 ("expected_company", company_name), ("pattern", expected_pattern)] })
    (fun k => k == .keyError || k == .typeError)
    (fun e =>
      { check_name := "filename_pattern", level := .warning, passed := false,
        message := "WARNING: Filename pattern check failed - " ++ e.msg,
        details := Option.some [("error", .str e.msg)] })

/-- Loop of `verify_recipient_name`: fuzzy match (substring either way,
case-insensitive) of the recipient against the authorized names. -/
def findRecipientName : List PyVal → PyVal → Except PyErr Bool
  | [], _ => Except.ok false
  | auth_name :: rest, recipient_name => do
      let al ← pyLower auth_name
      let rl ← pyLower recipient_name
      if strContains rl al || strContains al rl then pure true
      else findRecipientName rest recipient_name

/-- `verify_recipient_name`: passes when an authorized name fuzzy-matches
or when the record lists no names; only `KeyError` and `TypeError` are
caught (an `AttributeError` from `.lower()` propagates). -/
def verify_recipient_name (recipient_name customer_record : PyVal) :
    Except PyErr VerificationResult :=
  pyCatch
    (do
      let authorized_names ← pyGet customer_record "recipient_names" (.list [])
      let names ← pyIter authorized_names
      let name_found ← findRecipientName names recipient_name
      if name_found || !authorized_names.truthy then
        pure { check_name := "recipient_validation", level := .info, passed := true,
               message := "Recipient validated: " ++ pyStrOf recipient_name,
               details := Option.some [("recipient", recipient_name),
                 ("authorized_names", authorized_names)] }
      else
        pure { check_name := "recipient_validation", level := .warning, passed := false,
               message := "WARNING: Recipient name not in authorized list - " ++
                 pyStrOf recipient_name,
               details := Option.some [("recipient", recipient_name),
                 ("authorized_names", authorized_names)] })
    (fun k => k == .keyError || k == .typeError)
    (fun e =>
      { check_name := "recipient_validation", level := .warning, passed := false,
        message := "WARNING: Recipient validation failed - " ++ e.msg,
        details := Option.some [("error", .str e.msg)] })

/-- `level_1_pre_send_checks`: customer lookup by domain, then domain match,
email authorization and recipient validation (a found record is a non-empty
dict, so the source truthiness test on it coincides with a None test). -/
def level_1_pre_send_checks (customers : List PyVal) (email recipient_name : PyVal) :
    Except PyErr (List VerificationResult) := do
  let customer_record ← get_customer_by_email_domain customers email
  match customer_record with
  | Option.none =>
      pure [{ check_name := "customer_lookup", level := .critical, passed := false,
              message := "CRITICAL: No customer record found for email domain in " ++
                pyStrOf email,
              details := Option.some [("email", email)] }]
  | Option.some record => do
      let r1 ← verify_domain_match email record
      let r2 ← verify_email_authorization email record
      let r3 ← verify_recipient_name recipient_name record
      pure [r1, r2, r3]

/-- `level_2_content_validation`: customer lookup by domain, then file
existence and filename pattern checks. -/
def level_2_content_validation (customers : List PyVal) (fs : String → Option Int)
    (email : PyVal) : Except PyErr (List VerificationResult) := do
  let customer_record ← get_customer_by_email_domain customers email
  match customer_record with
  | Option.none =>
      pure [{ check_name := "customer_lookup_l2", level := .critical, passed := false,
              message := "CRITICAL: Customer record not found for Level 2 checks",
              details := Option.some [("email", email)] }]
  | Option.some record => do
      let r1 ← verify_pricing_file_exists record fs
      let r2 ← verify_filename_pattern record
      pure [r1, r2]

/-- The overall-status determination of `level_3_final_confirmation`
(source lines 474-490): filter the failing results at each severity, then
walk the if/elif chain to the `(overall_status, can_send)` pair. -/
def classifyResults (all_results : List VerificationResult) : String × Bool :=
  let critical_failures := all_results.filter
    (fun r => r.level == VerificationLevel.critical && !r.passed)
  let error_failures := all_results.filter
    (fun r => r.level == VerificationLevel.error && !r.passed)
  let warnings := all_results.filter
    (fun r => r.level == VerificationLevel.warning && !r.passed)
  if !critical_failures.isEmpty then ("FAIL", false)
  else if !error_failures.isEmpty then ("FAIL", false)
  else if !warnings.isEmpty then ("WARNING", false)
  else ("PASS", true)

/-- `level_3_final_confirmation`: run both levels, then classify the overall
outcome from the failing results at each severity. -/
def level_3_final_confirmation (customers : List PyVal) (fs : String → Option Int)
    (email recipient_name attachment_file : PyVal) :
    Except PyErr CustomerVerificationReport := do
  let customer_record ← get_customer_by_email_domain customers email
  match customer_record with
  | Option.none =>
      pure { customer_id := .str "unknown", company_name := .str "Unknown",
             email := email, recipient_name := recipient_name,
             attachment_file := attachment_file,
             verification_results := [⟨"final_customer_lookup", .critical, false,
               "CRITICAL: Customer record not found", Option.some [("email", email)]⟩],
             overall_status := "FAIL", can_send := false }
  | Option.some record => do
      let l1 ← level_1_pre_send_checks customers email recipient_name
      let l2 ← level_2_content_validation customers fs email
      let all_results := l1 ++ l2
      let sc := classifyResults all_results
      let cid ← pyGetItem record "id"
      let cname ← pyGetItem record "company_name"
      pure { customer_id := cid, company_name := cname, email := email,
             recipient_name := recipient_name, attachment_file := attachment_file,
             verification_results := all_results,
             overall_status := sc.1, can_send := sc.2 }

/-- `verify_email_send`: the main entry point.  The `try` block around the
Level 3 evaluation converts any exception into the fail-safe report (the
logging statements inside the block are I/O only). -/
def verify_email_send (customers : List PyVal) (fs : String → Option Int)
    (email recipient_name attachment_file : PyVal) : CustomerVerificationReport :=
  match level_3_final_confirmation customers fs email recipient_name attachment_file with
  | Except.ok report => report
  | Except.error e =>
      { customer_id := .str "error", company_name := .str "System Error",
        email := email, recipient_name := recipient_name,
        attachment_file := attachment_file,
        verification_results := [⟨"system_error", .critical, false,
          "CRITICAL: Verification system error - " ++ e.msg,
          Option.some [("error", .str e.msg)]⟩],
        overall_status := "FAIL", can_send := false }

/-- The `{'overall_status': ..., 'issues': [...]}` mapping returned by
`verify_customer`; each issue dict carries a single `message` string, which
is what the embedding stores. -/
structure VCResult where
  overall_status : String
  issues : List String
deriving Repr, DecidableEq

/-- Issues collected from the legacy list-shaped `file_generation`. -/
def fgListIssues : List PyVal → Except PyErr (List String)
  | [] => Except.ok []
  | file_info :: rest => do
      let fp ← pyGet file_info "file_path" PyVal.none
      let tail ← fgListIssues rest
      pure ((if fp.truthy then [] else ["Missing file path in file generation config"]) ++ tail)

/-- The file-generation issue collection of `verify_customer` (source lines
527-539): a falsy value yields the no-paths issue, a dict is checked for a
truthy `file_path`, a legacy list is checked item by item, and any other
truthy value yields no issue. -/
def fgIssuesE (fg : PyVal) : Except PyErr (List String) :=
  if !fg.truthy then pure ["No file generation paths configured"]
  else match fg with
    | .dict _ => do
        let fp ← pyGet fg "file_path" PyVal.none
        pure (if fp.truthy then ([] : List String)
          else ["Missing file path in file generation config"])
    | .list items => fgListIssues items
    | _ => pure []

/-- The `file_paths_verified` flag computation of `verify_customer`
(source lines 552-556). -/
def fgPathsVerified (fg : PyVal) : Except PyErr Bool :=
  match fg with
  | .dict _ => do
      let fp ← pyGet fg "file_path" PyVal.none
      pure fp.truthy
  | _ => pure fg.truthy

/-- The per-record body of `verify_customer` (source lines 517-559): compute
the issue list and status from the record's own data and refresh the
verification-status flags in place, returning the `{status, issues}`
mapping together with the updated record object.  The `last_check`
(`datetime.now().isoformat()`) and `last_verified`
(`datetime.now().strftime`) stamps are both drawn from the threaded `now`
string. -/
def vcCore (customer : PyVal) (now : String) : Except PyErr (VCResult × PyVal) := do
  let vs ← pyGet customer "verification_status" (.dict [])
  let dv ← pyGet vs "domain_verified" (.bool false)
  let domIssues ←
    if dv.truthy then pure ([] : List String)
    else do
      let ed ← pyGet customer "email_domain" (.str "unknown")
      pure ["Domain not verified: " ++ pyStrOf ed]
  let ea ← pyGet customer "email_addresses" PyVal.none
  let emailIssues := if ea.truthy then ([] : List String)
    else ["No email addresses configured"]
  let file_generation ← pyGet customer "file_generation" (.dict [])
  let fgIssues ← fgIssuesE file_generation
  let issues := domIssues ++ emailIssues ++ fgIssues
  let overall_status :=
    if issues.isEmpty then "passed"
    else if issues.any (fun m =>
        strContains m "No email addresses" || strContains m "not found") then "failed"
    else "warning"
  let vs0 ← pyGetItem customer "verification_status"
  let vs1 ← pySetItem vs0 "domain_verified" (.bool (overall_status ≠ "failed"))
  let c1 ← pySetItem customer "verification_status" vs1
  let vsa ← pyGetItem c1 "verification_status"
  let ea2 ← pyGet c1 "email_addresses" PyVal.none
  let vs2 ← pySetItem vsa "recipients_verified" (.bool ea2.truthy)
  let c2 ← pySetItem c1 "verification_status" vs2
  let fpv ← fgPathsVerified file_generation
  let vsb ← pyGetItem c2 "verification_status"
  let vs3 ← pySetItem vsb "file_paths_verified" (.bool fpv)
  let c3 ← pySetItem c2 "verification_status" vs3
  let vsc ← pyGetItem c3 "verification_status"
  let vs4 ← pySetItem vsc "last_check" (.str now)
  let c4 ← pySetItem c3 "verification_status" vs4
  let c5 ← pySetItem c4 "last_verified" (.str now)
  pure (⟨overall_status, issues⟩, c5)

/-- `MultiLayerVerificationSystem.verify_customer`: look the customer up by
id, run the per-record body `vcCore` on it, persist the mutated record
through `update_customer`, and return the `{status, issues}` mapping
together with the resulting store. -/
def verify_customer (customers : List PyVal) (customer_id : String) (now : String) :
    Except PyErr (VCResult × List PyVal) := do
  let found ← get_customer_by_id customers customer_id
  match found with
  | Option.none =>
      pure (⟨"failed", ["Customer ID " ++ customer_id ++ " not found"]⟩, customers)
  | Option.some customer => do
      let rc ← vcCore customer now
      let upd ← update_customer customers customer_id rc.2 now
      pure (rc.1, upd.2)

/-- `AuditEventType` enum from `audit_logging_v2.py`. -/
inductive AuditEventType where
  | email_send_attempt
  | email_send_success
  | email_send_failure
  | verification_failure
  | customer_created
  | customer_updated
  | customer_deleted
  | database_migration
  | system_error
  | security_violation
  | login_attempt
  | config_change
deriving Repr, DecidableEq

/-- The `.value` string of each event type. -/
def AuditEventType.value : AuditEventType → String
  | .email_send_attempt => "email_send_attempt"
  | .email_send_success => "email_send_success"
  | .email_send_failure => "email_send_failure"
  | .verification_failure => "verification_failure"
  | .customer_created => "customer_created"
  | .customer_updated => "customer_updated"
  | .customer_deleted => "customer_deleted"
  | .database_migration => "database_migration"
  | .system_error => "system_error"
  | .security_violation => "security_violation"
  | .login_attempt => "login_attempt"
  | .config_change => "config_change"

/-- `AuditSeverity` enum. -/
inductive AuditSeverity where
  | info
  | warning
  | error
  | critical
deriving Repr, DecidableEq

/-- The `.value` string of each severity. -/
def AuditSeverity.value : AuditSeverity → String
  | .info => "info"
  | .warning => "warning"
  | .error => "error"
  | .critical => "critical"

/-- `AuditEvent` dataclass.  ISO timestamp strings are modelled as integers
ordered as the real timestamps are (`datetime.fromisoformat` is then the
identity on this representation).  The md5-derived `event_id` of
`__post_init__` concerns no verified property and the field is carried
through unchanged. -/
structure AuditEvent where
  timestamp : Int
  event_type : AuditEventType
  severity : AuditSeverity
  user : String
  action : String
  details : List (String × PyVal)
  customer_id : Option String := Option.none
  email_address : Option String := Option.none
  recipient_name : Option String := Option.none
  attachment_file : Option String := Option.none
  verification_status : Option String := Option.none
  ip_address : Option String := Option.none
  session_id : Option String := Option.none
  success : Bool := true
  error_message : Option String := Option.none
  event_id : Option String := Option.none
deriving Repr

/-- The dictionary shape a logged event takes inside `self.audit_log`
after `asdict` plus the enum-to-string conversions of `log_event`. -/
structure StoredAuditEvent where
  timestamp : Int
  event_type : String
  severity : String
  user : String
  action : String
  details : List (String × PyVal)
  customer_id : Option String
  email_address : Option String
  recipient_name : Option String
  attachment_file : Option String
  verification_status : Option String
  ip_address : Option String
  session_id : Option String
  success : Bool
  error_message : Option String
  event_id : Option String
deriving Repr

/-- The `event_dict` built by `log_event`: `asdict(event)` with
`event_type`/`severity` replaced by their `.value` strings and
`session_id` overwritten with the logger's session id. -/
def toStoredEvent (e : AuditEvent) (session : String) : StoredAuditEvent :=
  { timestamp := e.timestamp, event_type := e.event_type.value,
    severity := e.severity.value, user := e.user, action := e.action,
    details := e.details, customer_id := e.customer_id,
    email_address := e.email_address, recipient_name := e.recipient_name,
    attachment_file := e.attachment_file,
    verification_status := e.verification_status, ip_address := e.ip_address,
    session_id := Option.some session, success := e.success,
    error_message := e.error_message, event_id := e.event_id }

/-- `AuditLogger.log_event`: append the converted event dict to the
in-memory ordered log (the immediate save of error/critical events and the
secondary file logger are I/O effects outside the in-memory state). -/
def log_event (audit_log : List StoredAuditEvent) (e : AuditEvent) (session : String) :
    List StoredAuditEvent :=
  audit_log ++ [toStoredEvent e session]

/-- Whether an optional string filter argument is active, following Python
truthiness of the default `None` and of empty strings. -/
def strFilterActive : Option String → Bool
  | Option.none => false
  | Option.some s => s ≠ ""

/-- The per-event predicate of `get_audit_events`: an event is kept when it
survives the date window and every active filter. -/
def auditEventKept (ev : StoredAuditEvent) (start_date end_date : Option Int)
    (event_type : Option AuditEventType) (customer_id : Option String)
    (email : Option String) (severity : Option AuditSeverity) : Bool :=
  (if start_date.isSome || end_date.isSome then
      (match start_date with
       | Option.some a => !(ev.timestamp < a)
       | Option.none => true) &&
      (match end_date with
       | Option.some b => !(ev.timestamp > b)
       | Option.none => true)
    else true) &&
  (match event_type with
   | Option.some t => ev.event_type == t.value
   | Option.none => true) &&
  (if strFilterActive customer_id then ev.customer_id == customer_id else true) &&
  (if strFilterActive email then ev.email_address == email else true) &&
  (match severity with
   | Option.some sv => ev.severity == sv.value
   | Option.none => true)

/-- `AuditLogger.get_audit_events`: filter the log, preserving order.
Date bounds are inclusive; a `None` or empty-string filter is inactive
(enum and datetime arguments are always truthy when supplied). -/
def get_audit_events (audit_log : List StoredAuditEvent)
    (start_date end_date : Option Int) (event_type : Option AuditEventType)
    (customer_id : Option String) (email : Option String)
    (severity : Option AuditSeverity) : List StoredAuditEvent :=
  audit_log.filter
    (fun ev => auditEventKept ev start_date end_date event_type customer_id email severity)

/-- Spec-side restatement of the report-status invariant, written from the
specification text: any failing critical or error result forces `FAIL`, a
failing warning with no higher-severity failure forces `WARNING`, and the
absence of failing results forces `PASS`. -/
def specOverallStatus (rs : List VerificationResult) : String :=
  if rs.any (fun r => !r.passed && (r.level == VerificationLevel.critical ||
      r.level == VerificationLevel.error)) then "FAIL"
  else if rs.any (fun r => !r.passed && r.level == VerificationLevel.warning) then "WARNING"
  else "PASS"

theorem filter_isEmpty_eq_not_any {α : Type} (l : List α) (p : α → Bool) :
    (l.filter p).isEmpty = !(l.any p) := by
  induction l with
  | nil => rfl
  | cons a t ih => cases hp : p a <;> simp [List.filter_cons, hp, ih]

theorem classifyResults_can_send (rs : List VerificationResult) :
    (classifyResults rs).2 = ((classifyResults rs).1 == "PASS") := by
  simp only [classifyResults]
  split
  · rfl
  · split
    · rfl
    · split
      · rfl
      · rfl

theorem any_fail_ce (rs : List VerificationResult) :
    rs.any (fun r => !r.passed && (r.level == VerificationLevel.critical ||
        r.level == VerificationLevel.error)) =
      (rs.any (fun r => r.level == VerificationLevel.critical && !r.passed) ||
       rs.any (fun r => r.level == VerificationLevel.error && !r.passed)) := by
  induction rs with
  | nil => rfl
  | cons a t ih =>
      simp only [List.any_cons, ih]
      cases a.passed <;> cases ha : (a.level == VerificationLevel.critical) <;>
        cases hb : (a.level == VerificationLevel.error) <;>
          simp [ha, hb, Bool.or_assoc, Bool.or_left_comm]

theorem any_fail_w (rs : List VerificationResult) :
    rs.any (fun r => !r.passed && r.level == VerificationLevel.warning) =
      rs.any (fun r => r.level == VerificationLevel.warning && !r.passed) := by
  induction rs with
  | nil => rfl
  | cons a t ih => simp only [List.any_cons, ih, Bool.and_comm]

theorem classifyResults_fst_eq_spec (rs : List VerificationResult) :
    (classifyResults rs).1 = specOverallStatus rs := by
  simp only [classifyResults, specOverallStatus, filter_isEmpty_eq_not_any,
    Bool.not_not, any_fail_ce, any_fail_w]
  cases hc : rs.any (fun r => r.level == VerificationLevel.critical && !r.passed) <;>
    cases he : rs.any (fun r => r.level == VerificationLevel.error && !r.passed) <;>
      cases hw : rs.any (fun r => r.level == VerificationLevel.warning && !r.passed) <;>
        simp

theorem level_3_report_classified (customers : List PyVal) (fs : String → Option Int)
    (email recipient_name attachment_file : PyVal) (rep : CustomerVerificationReport) :
    level_3_final_confirmation customers fs email recipient_name attachment_file =
      Except.ok rep →
    (rep.overall_status, rep.can_send) = classifyResults rep.verification_results := by
  intro h
  unfold level_3_final_confirmation at h
  cases hlook : get_customer_by_email_domain customers email with
  | error e =>
      rw [hlook] at h
      simp [Bind.bind, Except.bind] at h
  | ok o =>
      rw [hlook] at h
      cases o with
      | none =>
          simp only [Bind.bind, Except.bind, Pure.pure, Except.pure, Except.ok.injEq] at h
          rw [← h]
          rfl
      | some record =>
          simp only [Bind.bind, Except.bind] at h
          cases h1 : level_1_pre_send_checks customers email recipient_name with
          | error e => rw [h1] at h; simp at h
          | ok l1 =>
              rw [h1] at h
              cases h2 : level_2_content_validation customers fs email with
              | error e => rw [h2] at h; simp at h
              | ok l2 =>
                  rw [h2] at h
                  cases hcid : pyGetItem record "id" with
                  | error e => rw [hcid] at h; simp at h
                  | ok cid =>
                      rw [hcid] at h
                      cases hcn : pyGetItem record "company_name" with
                      | error e => rw [hcn] at h; simp at h
                      | ok cname =>
                          rw [hcn] at h
                          simp only [Pure.pure, Except.pure, Except.ok.injEq] at h
                          rw [← h]

theorem verify_email_send_classified (customers : List PyVal) (fs : String → Option Int)
    (email recipient_name attachment_file : PyVal) :
    ((verify_email_send customers fs email recipient_name attachment_file).overall_status,
     (verify_email_send customers fs email recipient_name attachment_file).can_send) =
      classifyResults
        (verify_email_send customers fs email recipient_name
          attachment_file).verification_results := by
  unfold verify_email_send
  cases h : level_3_final_confirmation customers fs email recipient_name attachment_file with
  | ok rep => exact level_3_report_classified customers fs email recipient_name attachment_file rep h
  | error e => rfl

/-- C1: for every report produced by the aggregator
(`level_3_final_confirmation` as returned through `verify_email_send`),
`can_send` holds exactly when `overall_status` is `"PASS"`; no input yields
a report with `can_send = true` under any other status. -/
theorem can_send_iff_overall_pass (customers : List PyVal) (fs : String → Option Int)
    (email recipient_name attachment_file : PyVal) :
    (verify_email_send customers fs email recipient_name attachment_file).can_send =
      ((verify_email_send customers fs email recipient_name
        attachment_file).overall_status == "PASS") := by
  have h := verify_email_send_classified customers fs email recipient_name attachment_file
  have h1 := congrArg Prod.fst h
  have h2 := congrArg Prod.snd h
  simp only at h1 h2
  rw [h2, h1, classifyResults_can_send]

/-- C2: the overall status of every produced report is the stated function
of its result list (failing critical/error forces `FAIL`, otherwise a
failing warning forces `WARNING`, otherwise `PASS`), and a `WARNING` report
is never auto-sendable. -/
theorem overall_status_follows_severity (customers : List PyVal) (fs : String → Option Int)
    (email recipient_name attachment_file : PyVal) :
    (verify_email_send customers fs email recipient_name attachment_file).overall_status =
      specOverallStatus (verify_email_send customers fs email recipient_name
        attachment_file).verification_results ∧
    ((verify_email_send customers fs email recipient_name
        attachment_file).overall_status = "WARNING" →
      (verify_email_send customers fs email recipient_name attachment_file).can_send = false) := by
  have h := verify_email_send_classified customers fs email recipient_name attachment_file
  have h1 := congrArg Prod.fst h
  have h2 := congrArg Prod.snd h
  simp only at h1 h2
  constructor
  · rw [h1, classifyResults_fst_eq_spec]
  · intro hw
    rw [h2, classifyResults_can_send, ← h1, hw]
    rfl

/-- Demonstration customer record (scenario shape of §8 of the spec). -/
def demoCustomer : PyVal := .dict [
  ("id", .str "C001"), ("company_name", .str "Acme"),
  ("recipient_names", .list [.str "Alice"]),
  ("email_addresses", .list [.str "a@acme.com"]),
  ("email_domain", .str "acme.com"),
  ("file_generation", .dict [("filename_pattern", .str "pat"),
    ("file_path", .str "files"), ("current_filename", .str "Acme_Pricing.pdf")])]

/-- Filesystem snapshot holding the demonstration pricing file. -/
def demoFs : String → Option Int :=
  fun p => if p = "files/Acme_Pricing.pdf" then Option.some 100 else Option.none

theorem overall_status_follows_severity_witness :
    (verify_email_send [demoCustomer] demoFs (.str "a@acme.com") (.str "Bob")
      (.str "Acme_Pricing.pdf")).can_send = false :=
  (overall_status_follows_severity [demoCustomer] demoFs (.str "a@acme.com") (.str "Bob")
    (.str "Acme_Pricing.pdf")).2 (by rfl)

/-- C3: whenever the evaluation inside `verify_email_send` raises, the
exception is not propagated: the returned report carries a synthetic
critical `system_error` failing result, overall status `FAIL` and
`can_send = false`. -/
theorem verify_email_send_fail_closed (customers : List PyVal) (fs : String → Option Int)
    (email recipient_name attachment_file : PyVal) (e : PyErr) :
    level_3_final_confirmation customers fs email recipient_name attachment_file =
      Except.error e →
    (verify_email_send customers fs email recipient_name attachment_file).overall_status =
        "FAIL" ∧
    (verify_email_send customers fs email recipient_name attachment_file).can_send = false ∧
    ∃ r ∈ (verify_email_send customers fs email recipient_name
        attachment_file).verification_results,
      r.check_name = "system_error" ∧ r.level = VerificationLevel.critical ∧
        r.passed = false := by
  intro h
  unfold verify_email_send
  rw [h]
  exact ⟨rfl, rfl, ⟨_, List.mem_singleton.mpr rfl, rfl, rfl, rfl⟩⟩

/-- A store whose only record lacks `email_addresses`, so that email
authorization raises an uncaught `KeyError` inside the evaluation. -/
def badDb : List PyVal := [.dict [("email_domain", .str "b.com")]]

theorem verify_email_send_fail_closed_witness :
    (verify_email_send badDb (fun _ => Option.none) (.str "a@b.com") (.str "R")
        (.str "f.pdf")).overall_status = "FAIL" ∧
    (verify_email_send badDb (fun _ => Option.none) (.str "a@b.com") (.str "R")
        (.str "f.pdf")).can_send = false ∧
    ∃ r ∈ (verify_email_send badDb (fun _ => Option.none) (.str "a@b.com") (.str "R")
        (.str "f.pdf")).verification_results,
      r.check_name = "system_error" ∧ r.level = VerificationLevel.critical ∧
        r.passed = false :=
  verify_email_send_fail_closed badDb (fun _ => Option.none) (.str "a@b.com") (.str "R")
    (.str "f.pdf") ⟨.keyError, "email_addresses"⟩ (by rfl)

/-- The report returned for a candidate whose domain resolves to no record. -/
def unknownReport (email recipient_name attachment_file : PyVal) :
    CustomerVerificationReport :=
  { customer_id := .str "unknown", company_name := .str "Unknown",
    email := email, recipient_name := recipient_name,
    attachment_file := attachment_file,
    verification_results := [⟨"final_customer_lookup", .critical, false,
      "CRITICAL: Customer record not found", Option.some [("email", email)]⟩],
    overall_status := "FAIL", can_send := false }

/-- C4 (amended): when the candidate email resolves to no customer record,
verification does not throw: the aggregator returns (and `verify_email_send`
passes through) a report whose single synthetic result is the failing
critical `final_customer_lookup` check, with overall status `FAIL`,
`can_send = false` and the `"unknown"` customer-id sentinel. -/
theorem unknown_domain_fail_report (customers : List PyVal) (fs : String → Option Int)
    (email recipient_name attachment_file : PyVal) :
    get_customer_by_email_domain customers email = Except.ok Option.none →
    level_3_final_confirmation customers fs email recipient_name attachment_file =
        Except.ok (verify_email_send customers fs email recipient_name attachment_file) ∧
    (verify_email_send customers fs email recipient_name attachment_file).overall_status =
        "FAIL" ∧
    (verify_email_send customers fs email recipient_name attachment_file).can_send = false ∧
    (verify_email_send customers fs email recipient_name attachment_file).customer_id =
        .str "unknown" ∧
    ∃ r ∈ (verify_email_send customers fs email recipient_name
        attachment_file).verification_results,
      r.check_name = "final_customer_lookup" ∧ r.level = VerificationLevel.critical ∧
        r.passed = false := by
  intro h
  have hl : level_3_final_confirmation customers fs email recipient_name attachment_file =
      Except.ok (unknownReport email recipient_name attachment_file) := by
    unfold level_3_final_confirmation
    rw [h]
    rfl
  have hv : verify_email_send customers fs email recipient_name attachment_file =
      unknownReport email recipient_name attachment_file := by
    unfold verify_email_send
    rw [hl]
  rw [hv, hl]
  exact ⟨rfl, rfl, rfl, rfl, ⟨_, List.mem_singleton.mpr rfl, rfl, rfl, rfl⟩⟩

theorem unknown_domain_fail_report_witness :
    level_3_final_confirmation [] (fun _ => Option.none) (.str "a@b.com") (.str "R")
        (.str "f.pdf") =
      Except.ok (verify_email_send [] (fun _ => Option.none) (.str "a@b.com") (.str "R")
        (.str "f.pdf")) ∧
    (verify_email_send [] (fun _ => Option.none) (.str "a@b.com") (.str "R")
        (.str "f.pdf")).overall_status = "FAIL" ∧
    (verify_email_send [] (fun _ => Option.none) (.str "a@b.com") (.str "R")
        (.str "f.pdf")).can_send = false ∧
    (verify_email_send [] (fun _ => Option.none) (.str "a@b.com") (.str "R")
        (.str "f.pdf")).customer_id = .str "unknown" ∧
    ∃ r ∈ (verify_email_send [] (fun _ => Option.none) (.str "a@b.com") (.str "R")
        (.str "f.pdf")).verification_results,
      r.check_name = "final_customer_lookup" ∧ r.level = VerificationLevel.critical ∧
        r.passed = false :=
  unknown_domain_fail_report [] (fun _ => Option.none) (.str "a@b.com") (.str "R")
    (.str "f.pdf") (by rfl)

/-- C4 counterexample: on an unresolvable candidate the produced report
contains no result named `customer_lookup` (the synthetic check is named
`final_customer_lookup`), so the claim as stated fails. -/
theorem unknown_domain_checkname_cex :
    get_customer_by_email_domain ([] : List PyVal) (.str "a@b.com") =
        Except.ok Option.none ∧
    (verify_email_send [] (fun _ => Option.none) (.str "a@b.com") (.str "R")
        (.str "f.pdf")).verification_results.all
      (fun r => !(r.check_name == "customer_lookup")) = true :=
  ⟨rfl, rfl⟩

/-- A record whose composed pricing-file path is `d/f.pdf`. -/
def fileRecC5 : PyVal := .dict [("file_generation", .dict
  [("file_path", .str "d"), ("current_filename", .str "f.pdf")])]

/-- Filesystem snapshot in which `d/f.pdf` exists with size zero. -/
def zeroSizeFs : String → Option Int :=
  fun p => if p = "d/f.pdf" then Option.some 0 else Option.none

/-- C5 counterexample: the rule passes on an existing but zero-sized file —
the non-empty-size requirement of the claim is not checked by the code. -/
theorem pricing_file_zero_size_cex :
    zeroSizeFs "d/f.pdf" = Option.some 0 ∧
    (verify_pricing_file_exists fileRecC5 zeroSizeFs).map
        (fun r => (r.passed, r.level)) =
      Except.ok (true, VerificationLevel.info) :=
  ⟨rfl, rfl⟩

/-- C5 (amended): for a record storing directory `fp` and filename `fn`
(both non-empty), the rule passes exactly when the composed path exists in
the filesystem snapshot — the file size is recorded but not required to be
non-zero — and when the file is absent it returns `passed = false` at
severity `error` (not `critical`). -/
theorem pricing_file_check_iff_exists (fp fn : String) (fs : String → Option Int)
    (extra : List (String × PyVal)) :
    fp ≠ "" → fn ≠ "" →
    ((verify_pricing_file_exists (.dict (("file_generation", .dict
        [("file_path", .str fp), ("current_filename", .str fn)]) :: extra)) fs).map
      (fun r => (r.passed, r.level)) =
     Except.ok (if (fs (pyJoinStr fp fn)).isSome then (true, VerificationLevel.info)
       else (false, VerificationLevel.error))) := by
  intro hfp hfn
  simp only [verify_pricing_file_exists, pyCatch, pyGetItem, List.find?, pyJoin,
    PyVal.truthy, Bind.bind, Except.bind, hfp, hfn]
  simp only [decide_eq_true_eq, if_true, if_false, reduceCtorEq, decide_not]
  cases hfs : fs (pyJoinStr fp fn) <;>
    simp [hfs, hfp, hfn, Except.map, Pure.pure, Except.pure]

theorem pricing_file_check_iff_exists_witness :
    ("d" : String) ≠ "" ∧ ("g.pdf" : String) ≠ "" ∧
    ((verify_pricing_file_exists (.dict [("file_generation", .dict
        [("file_path", .str "d"), ("current_filename", .str "g.pdf")])])
        (fun p => if p = "d/g.pdf" then Option.some 3 else Option.none)).map
      (fun r => (r.passed, r.level)) =
     Except.ok (if ((fun p => if p = "d/g.pdf" then Option.some 3 else Option.none)
         (pyJoinStr "d" "g.pdf")).isSome then (true, VerificationLevel.info)
       else (false, VerificationLevel.error))) :=
  ⟨by decide, by decide,
    pricing_file_check_iff_exists "d" "g.pdf"
      (fun p => if p = "d/g.pdf" then Option.some 3 else Option.none) []
      (by decide) (by decide)⟩

/-- The `email_domain` field of a record when it is present and a string. -/
def strDomainOf (c : PyVal) : Option String :=
  match pyGetItem c "email_domain" with
  | Except.ok (.str s) => Option.some s
  | _ => Option.none

/-- A store whose only record is soft-deleted (`active = false`) yet owns
the matching domain. -/
def inactiveDb : List PyVal := [.dict [("id", .str "X1"),
  ("email_domain", .str "acme.com"), ("active", .bool false)]]

/-- C6 counterexample: the lookup returns the soft-deleted record (the
`active` flag is never consulted), and an email without `@` yields the
ordinary not-found outcome instead of an `InvalidInputError`. -/
theorem find_by_domain_cex :
    get_customer_by_email_domain inactiveDb (.str "a@acme.com") =
      Except.ok (Option.some (.dict [("id", .str "X1"),
        ("email_domain", .str "acme.com"), ("active", .bool false)])) ∧
    get_customer_by_email_domain inactiveDb (.str "noatsign") =
      Except.ok Option.none :=
  ⟨rfl, rfl⟩

theorem findCustomerByDomainLoop_eq_find (customers : List PyVal) (d : String) :
    (∀ c ∈ customers, (strDomainOf c).isSome) →
    findCustomerByDomainLoop customers d =
      Except.ok (customers.find?
        (fun c => lowerStr ((strDomainOf c).getD "") == d)) := by
  intro hwf
  induction customers with
  | nil => rfl
  | cons c rest ih =>
      have hc := hwf c (List.mem_cons_self c rest)
      cases hsd : strDomainOf c with
      | none => rw [hsd] at hc; simp at hc
      | some s =>
          have hget : pyGetItem c "email_domain" = Except.ok (.str s) := by
            unfold strDomainOf at hsd
            cases hg : pyGetItem c "email_domain" with
            | error e => rw [hg] at hsd; simp at hsd
            | ok v =>
                rw [hg] at hsd
                cases v <;> simp_all
          have ihh := ih (fun x hx => hwf x (List.mem_cons_of_mem c hx))
          by_cases he : lowerStr s = d
          · simp [findCustomerByDomainLoop, hget, pyLower, Bind.bind, Except.bind,
              List.find?_cons, hsd, he, Pure.pure, Except.pure]
          · simp [findCustomerByDomainLoop, hget, pyLower, Bind.bind, Except.bind,
              List.find?_cons, hsd, he, ihh, Pure.pure, Except.pure]

/-- C6 (amended): the lookup extracts the domain after `@` and returns the
first record — active or soft-deleted alike, the `active` flag is not
consulted — whose `email_domain` matches case-insensitively, or `None`;
for an email with no `@` it returns `None` (the not-found outcome) rather
than failing with an `InvalidInputError`. -/
theorem find_by_domain_first_match (customers : List PyVal) (s d : String) :
    ((pySplitChar s '@').drop 1 = [] →
      get_customer_by_email_domain customers (.str s) = Except.ok Option.none) ∧
    (extractDomain (.str s) = Except.ok d →
      (∀ c ∈ customers, (strDomainOf c).isSome) →
      get_customer_by_email_domain customers (.str s) =
        Except.ok (customers.find?
          (fun c => lowerStr ((strDomainOf c).getD "") == d))) := by
  constructor
  · intro hsplit
    have hext : extractDomain (.str s) =
        Except.error ⟨.indexError, "list index out of range"⟩ := by
      simp only [extractDomain, hsplit]
    unfold get_customer_by_email_domain pyCatch
    simp only [Bind.bind, Except.bind, hext]
    rfl
  · intro hdom hwf
    unfold get_customer_by_email_domain pyCatch
    simp only [Bind.bind, Except.bind, hdom]
    rw [findCustomerByDomainLoop_eq_find customers d hwf]

theorem find_by_domain_first_match_witness :
    get_customer_by_email_domain inactiveDb (.str "A@ACME.com") =
      Except.ok (inactiveDb.find?
        (fun c => lowerStr ((strDomainOf c).getD "") == "acme.com")) :=
  (find_by_domain_first_match inactiveDb "A@ACME.com" "acme.com").2 (by rfl)
    (by decide)

/-- A one-record store for the deletion counterexample. -/
def delDb : List PyVal := [.dict [("id", .str "X1"), ("company_name", .str "A")]]

/-- C7 counterexample: `delete_customer` physically removes the record; it
is no longer retrievable by id afterwards, contradicting the
soft-delete/retrievability claim. -/
theorem delete_customer_cex :
    delete_customer delDb "X1" = Except.ok (true, ([] : List PyVal)) ∧
    get_customer_by_id ([] : List PyVal) "X1" = Except.ok Option.none :=
  ⟨rfl, rfl⟩

/-- Whether a record's `id` field compares equal to the given id
(`none` when reading the field raises). -/
def idMatches (c : PyVal) (cid : String) : Option Bool :=
  match pyGetItem c "id" with
  | Except.ok v => Option.some (pyEqStr v cid)
  | Except.error _ => Option.none

/-- C7 (amended): `delete_customer` physically removes the first record
whose `id` matches from the stored collection (there is no `active=false`
soft delete at this layer; the persisting save is synchronous I/O). -/
theorem delete_customer_removes (pre post : List PyVal) (c : PyVal) (cid : String) :
    (∀ x ∈ pre, idMatches x cid = Option.some false) →
    idMatches c cid = Option.some true →
    delete_customer (pre ++ c :: post) cid = Except.ok (true, pre ++ post) := by
  intro hpre hc
  induction pre with
  | nil =>
      have hg : ∃ v, pyGetItem c "id" = Except.ok v ∧ pyEqStr v cid = true := by
        unfold idMatches at hc
        cases hg : pyGetItem c "id" with
        | error e => rw [hg] at hc; simp at hc
        | ok v => rw [hg] at hc; simp at hc; exact ⟨v, rfl, hc⟩
      obtain ⟨v, hgv, hvv⟩ := hg
      simp only [List.nil_append, delete_customer, Bind.bind, Except.bind, hgv, hvv]
      rfl
  | cons a pre ih =>
      have ha := hpre a (List.mem_cons_self a pre)
      have hg : ∃ v, pyGetItem a "id" = Except.ok v ∧ pyEqStr v cid = false := by
        unfold idMatches at ha
        cases hg : pyGetItem a "id" with
        | error e => rw [hg] at ha; simp at ha
        | ok v => rw [hg] at ha; simp at ha; exact ⟨v, rfl, ha⟩
      obtain ⟨v, hgv, hvv⟩ := hg
      have ihh := ih (fun x hx => hpre x (List.mem_cons_of_mem a hx))
      simp only [List.cons_append, delete_customer, Bind.bind, Except.bind, hgv, hvv,
        Bool.false_eq_true, if_false, List.append_eq, ihh, Pure.pure, Except.pure]

theorem delete_customer_removes_witness :
    delete_customer ([.dict [("id", .str "K1")]] ++
        (.dict [("id", .str "K2")]) :: [.dict [("id", .str "K3")]]) "K2" =
      Except.ok (true, [.dict [("id", .str "K1")]] ++ [.dict [("id", .str "K3")]]) :=
  delete_customer_removes [.dict [("id", .str "K1")]] [.dict [("id", .str "K3")]]
    (.dict [("id", .str "K2")]) "K2" (by decide) (by decide)

/-- C9: after appending an event, querying by the event's own customer id,
its own email, or its own event type returns a list containing it; a query
whose inclusive time window excludes the event's timestamp does not return
it; and every query result is a sublist of the log, hence preserves
insertion order. -/
theorem audit_append_query_roundtrip (log : List StoredAuditEvent) (e : AuditEvent)
    (session : String) (start_date end_date : Option Int) :
    ((∃ a, start_date = Option.some a ∧ e.timestamp < a) ∨
     (∃ b, end_date = Option.some b ∧ b < e.timestamp)) →
    (toStoredEvent e session ∈ get_audit_events (log_event log e session)
        Option.none Option.none Option.none e.customer_id Option.none Option.none ∧
     toStoredEvent e session ∈ get_audit_events (log_event log e session)
        Option.none Option.none Option.none Option.none e.email_address Option.none ∧
     toStoredEvent e session ∈ get_audit_events (log_event log e session)
        Option.none Option.none (Option.some e.event_type) Option.none Option.none
        Option.none ∧
     toStoredEvent e session ∉ get_audit_events (log_event log e session)
        start_date end_date Option.none Option.none Option.none Option.none ∧
     ∀ (sd ed : Option Int) (et : Option AuditEventType) (ci em : Option String)
       (sv : Option AuditSeverity),
       (get_audit_events (log_event log e session) sd ed et ci em sv).Sublist
         (log_event log e session)) := by
  intro hexcl
  have hmemlog : toStoredEvent e session ∈ log_event log e session :=
    List.mem_append_right log (List.mem_singleton.mpr rfl)
  refine ⟨?_, ?_, ?_, ?_, ?_⟩
  · exact List.mem_filter.mpr ⟨hmemlog, by
      simp [auditEventKept, toStoredEvent, strFilterActive]⟩
  · exact List.mem_filter.mpr ⟨hmemlog, by
      simp [auditEventKept, toStoredEvent, strFilterActive]⟩
  · exact List.mem_filter.mpr ⟨hmemlog, by
      simp [auditEventKept, toStoredEvent, strFilterActive]⟩
  · intro hmem
    have hkept := (List.mem_filter.mp hmem).2
    rcases hexcl with ⟨a, hs, hlt⟩ | ⟨b, hs, hlt⟩ <;> subst hs <;>
      simp [auditEventKept, toStoredEvent, hlt, not_lt.mpr (le_of_lt hlt)] at hkept
  · intro sd ed et ci em sv
    exact List.filter_sublist (log_event log e session)

/-- A sample audit event used to instantiate the round-trip theorem. -/
def demoEvent : AuditEvent :=
  { timestamp := 3, event_type := .email_send_attempt, severity := .info,
    user := "u", action := "email_send_attempt", details := [],
    customer_id := Option.some "C1", email_address := Option.some "a@b.com" }

theorem audit_append_query_roundtrip_witness :
    toStoredEvent demoEvent "s" ∈ get_audit_events (log_event [] demoEvent "s")
        Option.none Option.none Option.none demoEvent.customer_id Option.none
        Option.none ∧
    toStoredEvent demoEvent "s" ∈ get_audit_events (log_event [] demoEvent "s")
        Option.none Option.none Option.none Option.none demoEvent.email_address
        Option.none ∧
    toStoredEvent demoEvent "s" ∈ get_audit_events (log_event [] demoEvent "s")
        Option.none Option.none (Option.some demoEvent.event_type) Option.none
        Option.none Option.none ∧
    toStoredEvent demoEvent "s" ∉ get_audit_events (log_event [] demoEvent "s")
        (Option.some 5) Option.none Option.none Option.none Option.none Option.none ∧
    ∀ (sd ed : Option Int) (et : Option AuditEventType) (ci em : Option String)
      (sv : Option AuditSeverity),
      (get_audit_events (log_event [] demoEvent "s") sd ed et ci em sv).Sublist
        (log_event [] demoEvent "s") :=
  audit_append_query_roundtrip [] demoEvent "s" (Option.some 5) Option.none
    (Or.inl ⟨5, rfl, by decide⟩)

/-- A record whose `company_name` is `None` while `file_generation` is
complete, driving `verify_filename_pattern` into `.lower()` on `None`. -/
def noneNameRec : PyVal := .dict [("company_name", PyVal.none),
  ("file_generation", .dict [("filename_pattern", .str "p"),
    ("current_filename", .str "f")])]

/-- C10 counterexample: with a `None`-valued `company_name` the filename
rule raises `AttributeError` (only `KeyError`/`TypeError` are caught), and
a `None` recipient with a non-empty name list makes the recipient rule
raise as well — neither returns the claimed failing result. -/
theorem rule_totality_cex :
    verify_filename_pattern noneNameRec =
      Except.error ⟨.attributeError, "object has no attribute lower"⟩ ∧
    verify_recipient_name PyVal.none
        (.dict [("recipient_names", .list [.str "Al"])]) =
      Except.error ⟨.attributeError, "object has no attribute lower"⟩ :=
  ⟨rfl, rfl⟩

theorem extractDomain_err_kind (em : PyVal) (e : PyErr) :
    extractDomain em = Except.error e →
    e.kind = PyErrKind.indexError ∨ e.kind = PyErrKind.attributeError := by
  intro h
  cases em with
  | str s =>
      simp only [extractDomain] at h
      cases hd : (pySplitChar s '@').drop 1 with
      | nil => rw [hd] at h; simp at h; rw [← h]; left; rfl
      | cons d rest => rw [hd] at h; simp at h
  | none => simp [extractDomain] at h; rw [← h]; right; rfl
  | bool b => simp [extractDomain] at h; rw [← h]; right; rfl
  | int n => simp [extractDomain] at h; rw [← h]; right; rfl
  | list xs => simp [extractDomain] at h; rw [← h]; right; rfl
  | dict xs => simp [extractDomain] at h; rw [← h]; right; rfl

theorem pyGetItem_dict_err_kind (flds : List (String × PyVal)) (k : String) (e : PyErr) :
    pyGetItem (.dict flds) k = Except.error e → e.kind = PyErrKind.keyError := by
  intro h
  simp only [pyGetItem] at h
  cases hf : flds.find? (fun kv => kv.1 = k) with
  | some kv => rw [hf] at h; simp at h
  | none => rw [hf] at h; simp at h; rw [← h]

theorem pyGetItem_err_key_or_type (v : PyVal) (k : String) (e : PyErr) :
    pyGetItem v k = Except.error e →
    e.kind = PyErrKind.keyError ∨ e.kind = PyErrKind.typeError := by
  intro h
  cases v with
  | dict flds => exact Or.inl (pyGetItem_dict_err_kind flds k e h)
  | none => simp [pyGetItem] at h; rw [← h]; right; rfl
  | bool b => simp [pyGetItem] at h; rw [← h]; right; rfl
  | int n => simp [pyGetItem] at h; rw [← h]; right; rfl
  | str s => simp [pyGetItem] at h; rw [← h]; right; rfl
  | list xs => simp [pyGetItem] at h; rw [← h]; right; rfl

theorem pyLower_err_kind (v : PyVal) (e : PyErr) :
    pyLower v = Except.error e → e.kind = PyErrKind.attributeError := by
  intro h
  cases v <;> simp [pyLower] at h <;> rw [← h]

theorem pyJoin_err_kind (a b : PyVal) (e : PyErr) :
    pyJoin a b = Except.error e → e.kind = PyErrKind.typeError := by
  intro h
  cases a <;> cases b <;> simp [pyJoin] at h <;> rw [← h]

theorem pyIter_err_kind (v : PyVal) (e : PyErr) :
    pyIter v = Except.error e → e.kind = PyErrKind.typeError := by
  intro h
  cases v <;> simp [pyIter] at h <;> rw [← h]

theorem pyCatch_shape {P : VerificationResult → Prop}
    (act : Except PyErr VerificationResult) (handled : PyErrKind → Bool)
    (h : PyErr → VerificationResult)
    (hok : ∀ r, act = Except.ok r → P r)
    (herr : ∀ e, act = Except.error e → handled e.kind = true)
    (hh : ∀ e, P (h e)) :
    ∃ r, pyCatch act handled h = Except.ok r ∧ P r := by
  cases hact : act with
  | ok r => exact ⟨r, by simp [pyCatch, hact], hok r hact⟩
  | error e => exact ⟨h e, by simp [pyCatch, hact, herr e hact], hh e⟩

/-- Shape of a rule that never raises: the evaluation succeeded and the
result either passes at `info` or fails at the rule's designated blocking
level `failLv`. -/
def okShape (x : Except PyErr VerificationResult) (failLv : VerificationLevel) : Prop :=
  match x with
  | Except.ok r => (r.passed = true ∧ r.level = VerificationLevel.info) ∨
      (r.passed = false ∧ r.level = failLv)
  | Except.error _ => False

/-- Shape of a rule that catches only `KeyError`/`TypeError`: either the
evaluation succeeded with a result passing at `info` or failing at
`failLv`, or it raised an (uncaught) `AttributeError`. -/
def okOrAttrShape (x : Except PyErr VerificationResult) (failLv : VerificationLevel) : Prop :=
  match x with
  | Except.ok r => (r.passed = true ∧ r.level = VerificationLevel.info) ∨
      (r.passed = false ∧ r.level = failLv)
  | Except.error e => e.kind = PyErrKind.attributeError

theorem verify_domain_match_okShape (em : PyVal) (flds : List (String × PyVal)) :
    okShape (verify_domain_match em (.dict flds)) VerificationLevel.critical := by
  unfold verify_domain_match
  cases hed : extractDomain em with
  | error e =>
      rcases extractDomain_err_kind em e hed with hk | hk <;>
        simp [pyCatch, Bind.bind, Except.bind, hed, hk, okShape]
  | ok d =>
      cases hg : pyGetItem (.dict flds) "email_domain" with
      | error e =>
          have hk := pyGetItem_dict_err_kind flds "email_domain" e hg
          simp [pyCatch, Bind.bind, Except.bind, hed, hg, hk, okShape]
      | ok v =>
          cases hl : pyLower v with
          | error e =>
              have hk := pyLower_err_kind v e hl
              simp [pyCatch, Bind.bind, Except.bind, hed, hg, hl, hk, okShape]
          | ok exp =>
              by_cases he : d = exp
              · simp [pyCatch, Bind.bind, Except.bind, hed, hg, hl, he, okShape,
                  Pure.pure, Except.pure]
              · cases hcn : pyGetItem (.dict flds) "company_name" with
                | error e =>
                    have hk := pyGetItem_dict_err_kind flds "company_name" e hcn
                    simp [pyCatch, Bind.bind, Except.bind, hed, hg, hl, he, hcn, hk,
                      okShape]
                | ok cn =>
                    simp [pyCatch, Bind.bind, Except.bind, hed, hg, hl, he, hcn,
                      okShape, Pure.pure, Except.pure]

theorem verify_pricing_file_exists_okShape (flds : List (String × PyVal))
    (fs : String → Option Int) :
    okShape (verify_pricing_file_exists (.dict flds) fs) VerificationLevel.error := by
  unfold verify_pricing_file_exists
  cases h1 : pyGetItem (.dict flds) "file_generation" with
  | error e =>
      have hk := pyGetItem_dict_err_kind flds "file_generation" e h1
      simp [pyCatch, Bind.bind, Except.bind, h1, hk, okShape]
  | ok fg =>
      cases h2 : pyGetItem fg "file_path" with
      | error e =>
          rcases pyGetItem_err_key_or_type fg "file_path" e h2 with hk | hk <;>
            simp [pyCatch, Bind.bind, Except.bind, h1, h2, hk, okShape]
      | ok fp =>
          cases h3 : pyGetItem fg "current_filename" with
          | error e =>
              rcases pyGetItem_err_key_or_type fg "current_filename" e h3 with hk | hk <;>
                simp [pyCatch, Bind.bind, Except.bind, h1, h2, h3, hk, okShape]
          | ok fn =>
              cases hb : (!fp.truthy || !fn.truthy) with
              | true =>
                  simp [pyCatch, Bind.bind, Except.bind, h1, h2, h3, hb, okShape,
                    Pure.pure, Except.pure]
              | false =>
                  cases hj : pyJoin fp fn with
                  | error e =>
                      have hk := pyJoin_err_kind fp fn e hj
                      simp [pyCatch, Bind.bind, Except.bind, h1, h2, h3, hb, hj, hk,
                        okShape]
                  | ok full_path =>
                      cases hfs : fs full_path with
                      | some sz =>
                          simp [pyCatch, Bind.bind, Except.bind, h1, h2, h3, hb, hj,
                            hfs, okShape, Pure.pure, Except.pure]
                      | none =>
                          simp [pyCatch, Bind.bind, Except.bind, h1, h2, h3, hb, hj,
                            hfs, okShape, Pure.pure, Except.pure]

theorem verify_filename_pattern_shape (flds : List (String × PyVal)) :
    okOrAttrShape (verify_filename_pattern (.dict flds)) VerificationLevel.warning := by
  unfold verify_filename_pattern
  cases h1 : pyGetItem (.dict flds) "file_generation" with
  | error e =>
      have hk := pyGetItem_dict_err_kind flds "file_generation" e h1
      simp [pyCatch, Bind.bind, Except.bind, h1, hk, okOrAttrShape]
  | ok fg =>
      cases h2 : pyGetItem fg "filename_pattern" with
      | error e =>
          rcases pyGetItem_err_key_or_type fg "filename_pattern" e h2 with hk | hk <;>
            simp [pyCatch, Bind.bind, Except.bind, h1, h2, hk, okOrAttrShape]
      | ok pat =>
          cases h3 : pyGetItem fg "current_filename" with
          | error e =>
              rcases pyGetItem_err_key_or_type fg "current_filename" e h3 with hk | hk <;>
                simp [pyCatch, Bind.bind, Except.bind, h1, h2, h3, hk, okOrAttrShape]
          | ok fn =>
              cases h4 : pyGetItem (.dict flds) "company_name" with
              | error e =>
                  have hk := pyGetItem_dict_err_kind flds "company_name" e h4
                  simp [pyCatch, Bind.bind, Except.bind, h1, h2, h3, h4, hk,
                    okOrAttrShape]
              | ok cn =>
                  cases h5 : pyLower cn with
                  | error e =>
                      have hk := pyLower_err_kind cn e h5
                      simp [pyCatch, Bind.bind, Except.bind, h1, h2, h3, h4, h5, hk,
                        okOrAttrShape]
                  | ok cl =>
                      cases h6 : pyLower fn with
                      | error e =>
                          have hk := pyLower_err_kind fn e h6
                          simp [pyCatch, Bind.bind, Except.bind, h1, h2, h3, h4, h5,
                            h6, hk, okOrAttrShape]
                      | ok fl =>
                          cases hc : strContains fl cl with
                          | true =>
                              simp [pyCatch, Bind.bind, Except.bind, h1, h2, h3, h4,
                                h5, h6, hc, okOrAttrShape, Pure.pure, Except.pure]
                          | false =>
                              simp [pyCatch, Bind.bind, Except.bind, h1, h2, h3, h4,
                                h5, h6, hc, okOrAttrShape, Pure.pure, Except.pure]

theorem findRecipientName_err_kind (names : List PyVal) (rn : PyVal) (e : PyErr) :
    findRecipientName names rn = Except.error e → e.kind = PyErrKind.attributeError := by
  induction names with
  | nil => intro h; simp [findRecipientName] at h
  | cons a rest ih =>
      intro h
      simp only [findRecipientName, Bind.bind, Except.bind] at h
      cases ha : pyLower a with
      | error e2 =>
          rw [ha] at h
          simp only [Except.error.injEq] at h
          exact h ▸ pyLower_err_kind a e2 ha
      | ok al =>
          rw [ha] at h
          simp only at h
          cases hr : pyLower rn with
          | error e2 =>
              rw [hr] at h
              simp only [Except.error.injEq] at h
              exact h ▸ pyLower_err_kind rn e2 hr
          | ok rl =>
              rw [hr] at h
              simp only at h
              cases hc : (strContains rl al || strContains al rl) with
              | true => rw [hc] at h; simp [Pure.pure, Except.pure] at h
              | false =>
                  rw [hc] at h
                  simp only [Bool.false_eq_true, if_false] at h
                  exact ih h

theorem pyGet_dict_ok (flds : List (String × PyVal)) (k : String) (dflt : PyVal) :
    ∃ v, pyGet (.dict flds) k dflt = Except.ok v := by
  simp only [pyGet]
  cases flds.find? (fun kv => kv.1 = k) <;> exact ⟨_, rfl⟩

theorem verify_recipient_name_shape (rn : PyVal) (flds : List (String × PyVal)) :
    okOrAttrShape (verify_recipient_name rn (.dict flds)) VerificationLevel.warning := by
  unfold verify_recipient_name
  obtain ⟨names0, h1⟩ := pyGet_dict_ok flds "recipient_names" (.list [])
  cases h2 : pyIter names0 with
  | error e =>
      have hk := pyIter_err_kind names0 e h2
      simp [pyCatch, Bind.bind, Except.bind, h1, h2, hk, okOrAttrShape]
  | ok names =>
      cases h3 : findRecipientName names rn with
      | error e =>
          have hk := findRecipientName_err_kind names rn e h3
          simp [pyCatch, Bind.bind, Except.bind, h1, h2, h3, hk, okOrAttrShape]
      | ok found =>
          cases hc : (found || !names0.truthy) with
          | true =>
              simp [pyCatch, Bind.bind, Except.bind, h1, h2, h3, hc, okOrAttrShape,
                Pure.pure, Except.pure]
          | false =>
              simp [pyCatch, Bind.bind, Except.bind, h1, h2, h3, hc, okOrAttrShape,
                Pure.pure, Except.pure]

/-- C10 (amended): over arbitrary dict-shaped records (missing keys, `None`
fields, wrong-typed fields all representable), `verify_domain_match` and
`verify_pricing_file_exists` are total and fail only at their designated
blocking levels (`critical` resp. `error`); `verify_filename_pattern` and
`verify_recipient_name` catch only `KeyError`/`TypeError`, so they either
return a result failing at `warning` or raise an uncaught
`AttributeError` (for example on `None`-valued `company_name`, filename or
recipient-name entries). -/
theorem rule_totality_amended (em rn : PyVal)
    (flds1 flds2 flds3 flds4 : List (String × PyVal)) (fs : String → Option Int) :
    okShape (verify_domain_match em (.dict flds1)) VerificationLevel.critical ∧
    okShape (verify_pricing_file_exists (.dict flds2) fs) VerificationLevel.error ∧
    okOrAttrShape (verify_filename_pattern (.dict flds3)) VerificationLevel.warning ∧
    okOrAttrShape (verify_recipient_name rn (.dict flds4)) VerificationLevel.warning :=
  ⟨verify_domain_match_okShape em flds1,
   verify_pricing_file_exists_okShape flds2 fs,
   verify_filename_pattern_shape flds3,
   verify_recipient_name_shape rn flds4⟩

/-- A store whose single customer has a stale `domain_verified = false`
flag but otherwise consistent data. -/
def flipDb : List PyVal := [.dict [
  ("id", .str "C1"), ("email_domain", .str "b.com"),
  ("email_addresses", .list [.str "a@b.com"]),
  ("file_generation", .dict [("file_path", .str "p")]),
  ("verification_status", .dict [("domain_verified", .bool false)])]]

/-- C8 counterexample: the first `verify_customer` call reports `warning`
with a domain issue and persists `domain_verified = true`; the immediately
repeated call (no external change) then reports `passed` with no issues —
the two calls disagree. -/
theorem verify_customer_cex :
    (verify_customer flipDb "C1" "t1").map (fun p => p.1) =
      Except.ok ⟨"warning", ["Domain not verified: b.com"]⟩ ∧
    ((verify_customer flipDb "C1" "t1").bind
        (fun p => verify_customer p.2 "C1" "t2")).map (fun p => p.1) =
      Except.ok ⟨"passed", []⟩ :=
  ⟨rfl, rfl⟩

/-- Total lookup of a key in a dict-shaped value. -/
def getTot (c : PyVal) (k : String) : Option PyVal :=
  match c with
  | .dict flds => (flds.find? (fun kv => kv.1 = k)).map (fun kv => kv.2)
  | _ => Option.none

/-- The record's `verification_status` when present and dict-shaped. -/
def readVSDict (c : PyVal) : Option (List (String × PyVal)) :=
  match getTot c "verification_status" with
  | Option.some (.dict vs) => Option.some vs
  | _ => Option.none

/-- Truthiness of the stored `domain_verified` flag (when readable). -/
def readD (c : PyVal) : Option Bool :=
  (readVSDict c).map
    (fun vs => ((getTot (.dict vs) "domain_verified").getD (.bool false)).truthy)

/-- The `email_domain` value read with the `"unknown"` default. -/
def readEd (c : PyVal) : PyVal := (getTot c "email_domain").getD (.str "unknown")

/-- Truthiness of the `email_addresses` value. -/
def readE (c : PyVal) : Bool := ((getTot c "email_addresses").getD PyVal.none).truthy

/-- The `file_generation` value read with the empty-dict default. -/
def readFg (c : PyVal) : PyVal := (getTot c "file_generation").getD (.dict [])

/-- The `{status, issues}` mapping `verify_customer` computes from the
domain flag `D`, the `email_domain` value `ed`, the email-list truthiness
`E` and the file-generation issues `fgIss`. -/
def vcRes (D : Bool) (ed : PyVal) (E : Bool) (fgIss : List String) : VCResult :=
  let issues := (if D then [] else ["Domain not verified: " ++ pyStrOf ed]) ++
    (if E then [] else ["No email addresses configured"]) ++ fgIss
  ⟨if issues.isEmpty then "passed"
    else if issues.any (fun m =>
        strContains m "No email addresses" || strContains m "not found") then "failed"
    else "warning", issues⟩

/-- The functional effect of a Python dict item assignment. -/
def dictSetTotal (flds : List (String × PyVal)) (key : String) (x : PyVal) :
    List (String × PyVal) :=
  if flds.any (fun kv => kv.1 = key) then
    flds.map (fun kv => if kv.1 = key then (key, x) else kv)
  else flds ++ [(key, x)]

theorem pySetItem_dict (flds : List (String × PyVal)) (k : String) (x : PyVal) :
    pySetItem (.dict flds) k x = Except.ok (.dict (dictSetTotal flds k x)) := by
  simp only [pySetItem, dictSetTotal]
  split <;> rfl

theorem pyGet_eq_getTot (flds : List (String × PyVal)) (k : String) (d : PyVal) :
    pyGet (.dict flds) k d = Except.ok ((getTot (.dict flds) k).getD d) := by
  simp only [pyGet, getTot]
  cases flds.find? (fun kv => kv.1 = k) <;> rfl

theorem find_map_set_same (flds : List (String × PyVal)) (k : String) (x : PyVal)
    (h : flds.any (fun kv => kv.1 = k) = true) :
    (flds.map (fun kv => if kv.1 = k then (k, x) else kv)).find?
      (fun kv => kv.1 = k) = Option.some (k, x) := by
  induction flds with
  | nil => simp at h
  | cons a rest ih =>
      by_cases ha : a.1 = k
      · simp [List.find?, ha]
      · simp only [List.map_cons, if_neg ha]
        rw [List.find?_cons_of_neg _ (by simpa using ha)]
        simp only [List.any_cons] at h
        rcases Bool.or_eq_true_iff.mp h with h1 | h1
        · exact absurd (by simpa using h1) ha
        · exact ih h1

theorem find_append_single_same (flds : List (String × PyVal)) (k : String) (x : PyVal)
    (h : flds.any (fun kv => kv.1 = k) = false) :
    (flds ++ [(k, x)]).find? (fun kv => kv.1 = k) = Option.some (k, x) := by
  induction flds with
  | nil => simp [List.find?]
  | cons a rest ih =>
      simp only [List.any_cons, Bool.or_eq_false_iff] at h
      rw [List.cons_append, List.find?_cons_of_neg _ (by simpa using h.1)]
      exact ih h.2

theorem getTot_set_same (flds : List (String × PyVal)) (k : String) (x : PyVal) :
    getTot (.dict (dictSetTotal flds k x)) k = Option.some x := by
  simp only [getTot, dictSetTotal]
  by_cases h : flds.any (fun kv => kv.1 = k)
  · rw [if_pos h, find_map_set_same flds k x h]
    rfl
  · rw [if_neg h, find_append_single_same flds k x (Bool.eq_false_iff.mpr h)]
    rfl

theorem find_map_set_other (flds : List (String × PyVal)) (k : String) (x : PyVal)
    (k2 : String) (h : k2 ≠ k) :
    (flds.map (fun kv => if kv.1 = k then (k, x) else kv)).find?
      (fun kv => kv.1 = k2) = flds.find? (fun kv => kv.1 = k2) := by
  induction flds with
  | nil => rfl
  | cons a rest ih =>
      by_cases ha : a.1 = k
      · rw [List.map_cons, if_pos ha,
          List.find?_cons_of_neg _ (by simpa using Ne.symm h),
          List.find?_cons_of_neg _ (by rw [ha]; simpa using Ne.symm h)]
        exact ih
      · by_cases ha2 : a.1 = k2
        · rw [List.map_cons, if_neg ha, List.find?_cons_of_pos _ (by simpa using ha2),
            List.find?_cons_of_pos _ (by simpa using ha2)]
        · rw [List.map_cons, if_neg ha, List.find?_cons_of_neg _ (by simpa using ha2),
            List.find?_cons_of_neg _ (by simpa using ha2)]
          exact ih

theorem find_append_single_other (flds : List (String × PyVal)) (k : String) (x : PyVal)
    (k2 : String) (h : k2 ≠ k) :
    (flds ++ [(k, x)]).find? (fun kv => kv.1 = k2) =
      flds.find? (fun kv => kv.1 = k2) := by
  induction flds with
  | nil => simp [List.find?, Ne.symm h]
  | cons a rest ih =>
      by_cases ha2 : a.1 = k2
      · rw [List.cons_append, List.find?_cons_of_pos _ (by simpa using ha2),
          List.find?_cons_of_pos _ (by simpa using ha2)]
      · rw [List.cons_append, List.find?_cons_of_neg _ (by simpa using ha2),
          List.find?_cons_of_neg _ (by simpa using ha2)]
        exact ih

theorem getTot_set_other (flds : List (String × PyVal)) (k : String) (x : PyVal)
    (k2 : String) (h : k2 ≠ k) :
    getTot (.dict (dictSetTotal flds k x)) k2 = getTot (.dict flds) k2 := by
  simp only [getTot, dictSetTotal]
  by_cases hany : flds.any (fun kv => kv.1 = k)
  · rw [if_pos hany, find_map_set_other flds k x k2 h]
  · rw [if_neg hany, find_append_single_other flds k x k2 h]

theorem pyGetItem_dict_eq (flds : List (String × PyVal)) (k : String) :
    pyGetItem (.dict flds) k =
      (match getTot (.dict flds) k with
       | Option.some v => Except.ok v
       | Option.none => Except.error ⟨.keyError, k⟩) := by
  simp only [pyGetItem, getTot]
  cases flds.find? (fun kv => kv.1 = k) <;> rfl

theorem fgPathsVerified_ok (fg : PyVal) : ∃ b, fgPathsVerified fg = Except.ok b := by
  cases fg <;>
    simp [fgPathsVerified, Bind.bind, Except.bind, Pure.pure, Except.pure, pyGet_eq_getTot]

/-- The record object as left by `vcCore`: the four verification-status
flag assignments followed by the `last_verified` stamp. -/
def vcUpd (flds vsf : List (String × PyVal)) (sf E fpv : Bool) (now : String) :
    List (String × PyVal) :=
  let vs1 := dictSetTotal vsf "domain_verified" (.bool sf)
  let c1 := dictSetTotal flds "verification_status" (.dict vs1)
  let vs2 := dictSetTotal vs1 "recipients_verified" (.bool E)
  let c2 := dictSetTotal c1 "verification_status" (.dict vs2)
  let vs3 := dictSetTotal vs2 "file_paths_verified" (.bool fpv)
  let c3 := dictSetTotal c2 "verification_status" (.dict vs3)
  let vs4 := dictSetTotal vs3 "last_check" (.str now)
  let c4 := dictSetTotal c3 "verification_status" (.dict vs4)
  dictSetTotal c4 "last_verified" (.str now)

theorem vcUpd_vs (flds vsf : List (String × PyVal)) (sf E fpv : Bool) (now : String) :
    getTot (.dict (vcUpd flds vsf sf E fpv now)) "verification_status" =
      Option.some (.dict (dictSetTotal (dictSetTotal (dictSetTotal
        (dictSetTotal vsf "domain_verified" (.bool sf))
        "recipients_verified" (.bool E))
        "file_paths_verified" (.bool fpv))
        "last_check" (.str now))) := by
  simp only [vcUpd]
  rw [getTot_set_other _ _ _ _ (by decide), getTot_set_same]

theorem vcUpd_readD (flds vsf : List (String × PyVal)) (sf E fpv : Bool) (now : String) :
    readD (.dict (vcUpd flds vsf sf E fpv now)) = Option.some sf := by
  simp only [readD, readVSDict, vcUpd_vs, Option.map_some']
  rw [getTot_set_other _ _ _ _ (by decide), getTot_set_other _ _ _ _ (by decide),
    getTot_set_other _ _ _ _ (by decide), getTot_set_same]
  rfl

theorem vcUpd_read_other (flds vsf : List (String × PyVal)) (sf E fpv : Bool)
    (now : String) (k : String) (hk1 : k ≠ "verification_status")
    (hk2 : k ≠ "last_verified") :
    getTot (.dict (vcUpd flds vsf sf E fpv now)) k = getTot (.dict flds) k := by
  simp only [vcUpd]
  rw [getTot_set_other _ _ _ _ hk2, getTot_set_other _ _ _ _ hk1,
    getTot_set_other _ _ _ _ hk1, getTot_set_other _ _ _ _ hk1,
    getTot_set_other _ _ _ _ hk1]

theorem vcCore_compute (flds vsf : List (String × PyVal)) (D E : Bool) (edv : PyVal)
    (I : List String) (fpv : Bool) (now : String)
    (hvs : getTot (.dict flds) "verification_status" = Option.some (.dict vsf))
    (hD : ((getTot (.dict vsf) "domain_verified").getD (.bool false)).truthy = D)
    (hEd : (getTot (.dict flds) "email_domain").getD (.str "unknown") = edv)
    (hE : ((getTot (.dict flds) "email_addresses").getD PyVal.none).truthy = E)
    (hI : fgIssuesE ((getTot (.dict flds) "file_generation").getD (.dict [])) =
      Except.ok I)
    (hfpv : fgPathsVerified ((getTot (.dict flds) "file_generation").getD
      (.dict [])) = Except.ok fpv) :
    vcCore (.dict flds) now = Except.ok
      (vcRes D edv E I,
       .dict (vcUpd flds vsf
         (decide ((vcRes D edv E I).overall_status ≠ "failed")) E fpv now)) := by
  cases D <;> cases E <;>
    simp [vcCore, Bind.bind, Except.bind, Pure.pure, Except.pure, pyGet_eq_getTot,
      hvs, Option.getD_some, pyGetItem_dict_eq, pySetItem_dict, hI, hfpv, hD, hEd, hE,
      getTot_set_same, getTot_set_other, vcRes, vcUpd]

theorem getTot_nil (k : String) : getTot (.dict []) k = Option.none := rfl

theorem vcCore_inv (c : PyVal) (now : String) (res : VCResult) (c5 : PyVal) :
    vcCore c now = Except.ok (res, c5) →
    ∃ flds vsf I, c = .dict flds ∧
      getTot (.dict flds) "verification_status" = Option.some (.dict vsf) ∧
      fgIssuesE ((getTot (.dict flds) "file_generation").getD (.dict [])) =
        Except.ok I := by
  intro h
  cases c with
  | dict flds =>
      cases hvs : getTot (.dict flds) "verification_status" with
      | none =>
          exfalso
          cases hI : fgIssuesE ((getTot (.dict flds) "file_generation").getD
              (.dict [])) <;>
            simp [vcCore, Bind.bind, Except.bind, Pure.pure, Except.pure,
              pyGet_eq_getTot, pyGetItem_dict_eq, hvs, hI, getTot_nil,
              Option.getD_none, Option.getD_some] at h
      | some vsv =>
          cases vsv with
          | dict vsf =>
              cases hI : fgIssuesE ((getTot (.dict flds) "file_generation").getD
                  (.dict [])) with
              | error e =>
                  exfalso
                  simp [vcCore, Bind.bind, Except.bind, Pure.pure, Except.pure,
                    pyGet_eq_getTot, pyGetItem_dict_eq, hvs, hI,
                    Option.getD_none, Option.getD_some] at h
              | ok I => exact ⟨flds, vsf, I, rfl, hvs, hI⟩
          | none =>
              exfalso
              have hdv : pyGet PyVal.none "domain_verified" (.bool false) =
                  Except.error ⟨.attributeError, "object has no attribute get"⟩ := rfl
              simp [vcCore, Bind.bind, Except.bind, pyGet_eq_getTot, hvs,
                Option.getD_some, hdv] at h
          | bool b =>
              exfalso
              have hdv : pyGet (.bool b) "domain_verified" (.bool false) =
                  Except.error ⟨.attributeError, "object has no attribute get"⟩ := rfl
              simp [vcCore, Bind.bind, Except.bind, pyGet_eq_getTot, hvs,
                Option.getD_some, hdv] at h
          | int n =>
              exfalso
              have hdv : pyGet (.int n) "domain_verified" (.bool false) =
                  Except.error ⟨.attributeError, "object has no attribute get"⟩ := rfl
              simp [vcCore, Bind.bind, Except.bind, pyGet_eq_getTot, hvs,
                Option.getD_some, hdv] at h
          | str s =>
              exfalso
              have hdv : pyGet (.str s) "domain_verified" (.bool false) =
                  Except.error ⟨.attributeError, "object has no attribute get"⟩ := rfl
              simp [vcCore, Bind.bind, Except.bind, pyGet_eq_getTot, hvs,
                Option.getD_some, hdv] at h
          | list xs =>
              exfalso
              have hdv : pyGet (.list xs) "domain_verified" (.bool false) =
                  Except.error ⟨.attributeError, "object has no attribute get"⟩ := rfl
              simp [vcCore, Bind.bind, Except.bind, pyGet_eq_getTot, hvs,
                Option.getD_some, hdv] at h
  | none => simp [vcCore, Bind.bind, Except.bind, pyGet] at h
  | bool b => simp [vcCore, Bind.bind, Except.bind, pyGet] at h
  | int n => simp [vcCore, Bind.bind, Except.bind, pyGet] at h
  | str s => simp [vcCore, Bind.bind, Except.bind, pyGet] at h
  | list xs => simp [vcCore, Bind.bind, Except.bind, pyGet] at h

theorem fgListIssues_clean (items : List PyVal) (I : List String) :
    fgListIssues items = Except.ok I →
    I.any (fun m => strContains m "No email addresses" ||
      strContains m "not found") = false := by
  induction items generalizing I with
  | nil =>
      intro h
      simp [fgListIssues, Pure.pure, Except.pure] at h
      subst h
      rfl
  | cons fi rest ih =>
      intro h
      simp only [fgListIssues, Bind.bind, Except.bind] at h
      cases hg : pyGet fi "file_path" PyVal.none with
      | error e => rw [hg] at h; simp at h
      | ok fp =>
          rw [hg] at h
          simp only at h
          cases ht : fgListIssues rest with
          | error e => rw [ht] at h; simp at h
          | ok tail =>
              rw [ht] at h
              simp only [Pure.pure, Except.pure, Except.ok.injEq] at h
              rw [← h, List.any_append, ih tail ht]
              cases fp.truthy <;> (simp; try decide)

theorem fgIssuesE_clean (fg : PyVal) (I : List String) :
    fgIssuesE fg = Except.ok I →
    I.any (fun m => strContains m "No email addresses" ||
      strContains m "not found") = false := by
  intro h
  unfold fgIssuesE at h
  by_cases ht : fg.truthy
  · rw [ht] at h
    simp only [Bool.not_true, Bool.false_eq_true, if_false] at h
    cases fg with
    | dict flds =>
        rw [pyGet_eq_getTot] at h
        simp only [Bind.bind, Except.bind, Pure.pure, Except.pure,
          Except.ok.injEq] at h
        rw [← h]
        cases ((getTot (.dict flds) "file_path").getD PyVal.none).truthy <;>
          (simp; try decide)
    | list items => exact fgListIssues_clean items I h
    | none => simp [Pure.pure, Except.pure] at h; subst h; rfl
    | bool b => simp [Pure.pure, Except.pure] at h; subst h; rfl
    | int n => simp [Pure.pure, Except.pure] at h; subst h; rfl
    | str s => simp [Pure.pure, Except.pure] at h; subst h; rfl
  · rw [Bool.eq_false_iff.mpr ht] at h
    simp only [Bool.not_false, if_true, Pure.pure, Except.pure,
      Except.ok.injEq] at h
    rw [← h]
    decide

theorem get_customer_by_id_split (pre post : List PyVal) (c : PyVal) (cid : String)
    (hpre : ∀ x ∈ pre, idMatches x cid = Option.some false)
    (hc : idMatches c cid = Option.some true) :
    get_customer_by_id (pre ++ c :: post) cid = Except.ok (Option.some c) := by
  induction pre with
  | nil =>
      have hg : ∃ v, pyGetItem c "id" = Except.ok v ∧ pyEqStr v cid = true := by
        unfold idMatches at hc
        cases hg : pyGetItem c "id" with
        | error e => rw [hg] at hc; simp at hc
        | ok v => rw [hg] at hc; simp at hc; exact ⟨v, rfl, hc⟩
      obtain ⟨v, hgv, hvv⟩ := hg
      simp only [List.nil_append, get_customer_by_id, Bind.bind, Except.bind, hgv, hvv]
      rfl
  | cons a pre ih =>
      have ha := hpre a (List.mem_cons_self a pre)
      have hg : ∃ v, pyGetItem a "id" = Except.ok v ∧ pyEqStr v cid = false := by
        unfold idMatches at ha
        cases hg : pyGetItem a "id" with
        | error e => rw [hg] at ha; simp at ha
        | ok v => rw [hg] at ha; simp at ha; exact ⟨v, rfl, ha⟩
      obtain ⟨v, hgv, hvv⟩ := hg
      have ihh := ih (fun x hx => hpre x (List.mem_cons_of_mem a hx))
      simp only [List.cons_append, get_customer_by_id, Bind.bind, Except.bind, hgv,
        hvv, Bool.false_eq_true, if_false, List.append_eq, ihh]

theorem get_customer_by_id_found (cs : List PyVal) (cid : String) (c : PyVal) :
    get_customer_by_id cs cid = Except.ok (Option.some c) →
    ∃ pre post, cs = pre ++ c :: post ∧
      (∀ x ∈ pre, idMatches x cid = Option.some false) ∧
      idMatches c cid = Option.some true := by
  induction cs with
  | nil => intro h; simp [get_customer_by_id, Pure.pure, Except.pure] at h
  | cons a rest ih =>
      intro h
      simp only [get_customer_by_id, Bind.bind, Except.bind] at h
      cases hg : pyGetItem a "id" with
      | error e => rw [hg] at h; simp at h
      | ok v =>
          rw [hg] at h
          simp only at h
          cases hv : pyEqStr v cid with
          | true =>
              rw [hv] at h
              simp only [if_true, Pure.pure, Except.pure, Except.ok.injEq,
                Option.some.injEq] at h
              subst h
              exact ⟨[], rest, rfl, by simp, by simp [idMatches, hg, hv]⟩
          | false =>
              rw [hv] at h
              simp only [Bool.false_eq_true, if_false] at h
              obtain ⟨pre, post, heq, hpre, hc⟩ := ih h
              exact ⟨a :: pre, post, by rw [heq, List.cons_append],
                by
                  intro x hx
                  rcases List.mem_cons.mp hx with hx | hx
                  · subst hx; simp [idMatches, hg, hv]
                  · exact hpre x hx,
                hc⟩

theorem update_customer_split (pre post : List PyVal) (c : PyVal) (cid now : String)
    (nflds : List (String × PyVal))
    (hpre : ∀ x ∈ pre, idMatches x cid = Option.some false)
    (hc : idMatches c cid = Option.some true) :
    update_customer (pre ++ c :: post) cid (.dict nflds) now =
      Except.ok (true, pre ++ (.dict (dictSetTotal (dictSetTotal nflds "id"
        (.str cid)) "updated_at" (.str now))) :: post) := by
  induction pre with
  | nil =>
      have hg : ∃ v, pyGetItem c "id" = Except.ok v ∧ pyEqStr v cid = true := by
        unfold idMatches at hc
        cases hg : pyGetItem c "id" with
        | error e => rw [hg] at hc; simp at hc
        | ok v => rw [hg] at hc; simp at hc; exact ⟨v, rfl, hc⟩
      obtain ⟨v, hgv, hvv⟩ := hg
      simp only [List.nil_append, update_customer, Bind.bind, Except.bind, hgv, hvv,
        if_true, pySetItem_dict, Pure.pure, Except.pure]
  | cons a pre ih =>
      have ha := hpre a (List.mem_cons_self a pre)
      have hg : ∃ v, pyGetItem a "id" = Except.ok v ∧ pyEqStr v cid = false := by
        unfold idMatches at ha
        cases hg : pyGetItem a "id" with
        | error e => rw [hg] at ha; simp at ha
        | ok v => rw [hg] at ha; simp at ha; exact ⟨v, rfl, ha⟩
      obtain ⟨v, hgv, hvv⟩ := hg
      have ihh := ih (fun x hx => hpre x (List.mem_cons_of_mem a hx))
      simp only [List.cons_append, update_customer, Bind.bind, Except.bind, hgv,
        hvv, Bool.false_eq_true, if_false, List.append_eq, ihh, Pure.pure,
        Except.pure]

theorem verify_customer_notfound (cs : List PyVal) (cid n : String)
    (h : get_customer_by_id cs cid = Except.ok Option.none) :
    verify_customer cs cid n =
      Except.ok (⟨"failed", ["Customer ID " ++ cid ++ " not found"]⟩, cs) := by
  unfold verify_customer
  simp [Bind.bind, Except.bind, h, Pure.pure, Except.pure]

/-- The observation of a record that determines a `verify_customer` result:
domain-flag truthiness, `email_domain` value, email-list truthiness, and
the file-generation issue list. -/
structure VCObs where
  D : Bool
  edv : PyVal
  E : Bool
  I : List String

/-- The record exposes observation `o` to `vcCore`. -/
def obsOf (c : PyVal) (o : VCObs) : Prop :=
  readD c = Option.some o.D ∧ readEd c = o.edv ∧ readE c = o.E ∧
    fgIssuesE (readFg c) = Except.ok o.I

theorem verify_customer_run (cs : List PyVal) (cid n : String) (r : VCResult)
    (S' : List PyVal) (c : PyVal)
    (hfound : get_customer_by_id cs cid = Except.ok (Option.some c))
    (hrun : verify_customer cs cid n = Except.ok (r, S')) :
    ∃ o : VCObs, obsOf c o ∧ r = vcRes o.D o.edv o.E o.I ∧
      ∃ c', get_customer_by_id S' cid = Except.ok (Option.some c') ∧
        obsOf c' ⟨decide (r.overall_status ≠ "failed"), o.edv, o.E, o.I⟩ := by
  unfold verify_customer at hrun
  rw [hfound] at hrun
  simp only [Bind.bind, Except.bind] at hrun
  cases hcore : vcCore c n with
  | error e => rw [hcore] at hrun; simp at hrun
  | ok rc =>
      rw [hcore] at hrun
      simp only at hrun
      obtain ⟨flds, vsf, I, hcfld, hvs, hI⟩ :=
        vcCore_inv c n rc.1 rc.2 (by rw [hcore])
      subst hcfld
      obtain ⟨fpv, hfpv⟩ :=
        fgPathsVerified_ok ((getTot (.dict flds) "file_generation").getD (.dict []))
      have hcompute := vcCore_compute flds vsf _ _ _ I fpv n hvs rfl rfl rfl hI hfpv
      have hrc : (vcRes (((getTot (.dict vsf) "domain_verified").getD
            (.bool false)).truthy)
          (readEd (.dict flds)) (readE (.dict flds)) I,
          (.dict (vcUpd flds vsf
            (decide ((vcRes (((getTot (.dict vsf) "domain_verified").getD
                 (.bool false)).truthy)
               (readEd (.dict flds)) (readE (.dict flds)) I).overall_status ≠
                 "failed"))
            (readE (.dict flds)) fpv n) : PyVal)) = rc := by
        injection hcompute.symm.trans hcore
      obtain ⟨pre, post, hsplit, hpre, hcmatch⟩ :=
        get_customer_by_id_found cs cid (.dict flds) hfound
      subst hsplit
      rw [← hrc] at hrun
      rw [update_customer_split pre post (.dict flds) cid n _ hpre hcmatch] at hrun
      simp only [Pure.pure, Except.pure, Except.ok.injEq, Prod.mk.injEq] at hrun
      obtain ⟨hr, hS⟩ := hrun
      refine ⟨⟨((getTot (.dict vsf) "domain_verified").getD (.bool false)).truthy,
        readEd (.dict flds), readE (.dict flds), I⟩,
        ⟨by simp [readD, readVSDict, hvs], rfl, rfl, hI⟩, hr.symm, ?_⟩
      rw [← hr]
      refine ⟨.dict (dictSetTotal (dictSetTotal (vcUpd flds vsf
          (decide ((vcRes (((getTot (.dict vsf) "domain_verified").getD
               (.bool false)).truthy)
             (readEd (.dict flds)) (readE (.dict flds)) I).overall_status ≠
               "failed"))
          (readE (.dict flds)) fpv n) "id" (.str cid)) "updated_at" (.str n)),
        ?_, ?_, ?_, ?_, ?_⟩
      · rw [← hS]
        apply get_customer_by_id_split pre post _ cid hpre
        simp [idMatches, pyGetItem_dict_eq, getTot_set_same,
          getTot_set_other _ _ _ _ (show ("id" : String) ≠ "updated_at" by decide),
          pyEqStr]
      · have h1 : getTot (.dict (dictSetTotal (dictSetTotal (vcUpd flds vsf
              (decide ((vcRes (((getTot (.dict vsf) "domain_verified").getD
                   (.bool false)).truthy)
                 (readEd (.dict flds)) (readE (.dict flds)) I).overall_status ≠
                   "failed"))
              (readE (.dict flds)) fpv n) "id" (.str cid)) "updated_at" (.str n)))
            "verification_status" =
            getTot (.dict (vcUpd flds vsf
              (decide ((vcRes (((getTot (.dict vsf) "domain_verified").getD
                   (.bool false)).truthy)
                 (readEd (.dict flds)) (readE (.dict flds)) I).overall_status ≠
                   "failed"))
              (readE (.dict flds)) fpv n)) "verification_status" := by
          rw [getTot_set_other _ _ _ _ (by decide), getTot_set_other _ _ _ _ (by decide)]
        show readD _ = _
        unfold readD readVSDict
        rw [h1]
        have h2 := vcUpd_readD flds vsf
          (decide ((vcRes (((getTot (.dict vsf) "domain_verified").getD
               (.bool false)).truthy)
             (readEd (.dict flds)) (readE (.dict flds)) I).overall_status ≠
               "failed"))
          (readE (.dict flds)) fpv n
        unfold readD readVSDict at h2
        exact h2
      · show readEd _ = _
        unfold readEd
        rw [getTot_set_other _ _ _ _ (by decide), getTot_set_other _ _ _ _ (by decide),
          vcUpd_read_other _ _ _ _ _ _ _ (by decide) (by decide)]
      · show readE _ = _
        unfold readE
        rw [getTot_set_other _ _ _ _ (by decide), getTot_set_other _ _ _ _ (by decide),
          vcUpd_read_other _ _ _ _ _ _ _ (by decide) (by decide)]
      · show fgIssuesE _ = _
        unfold readFg
        rw [getTot_set_other _ _ _ _ (by decide), getTot_set_other _ _ _ _ (by decide),
          vcUpd_read_other _ _ _ _ _ _ _ (by decide) (by decide)]
        exact hI

theorem vcRes_status_stable (edv : PyVal) (E : Bool) (I : List String)
    (hI : I.any (fun m => strContains m "No email addresses" ||
      strContains m "not found") = false) (D : Bool) :
    decide ((vcRes (decide ((vcRes D edv E I).overall_status ≠ "failed")) edv E
        I).overall_status ≠ "failed") =
      decide ((vcRes D edv E I).overall_status ≠ "failed") := by
  have hpem : (strContains "No email addresses configured" "No email addresses" ||
      strContains "No email addresses configured" "not found") = true := by decide
  by_cases hb : (strContains ("Domain not verified: " ++ pyStrOf edv)
      "No email addresses" ||
      strContains ("Domain not verified: " ++ pyStrOf edv) "not found") = true <;>
    by_cases hIe : I = [] <;>
      cases E <;> cases D <;>
        simp_all [vcRes, List.any_append, hpem]

theorem obsOf_unique (c : PyVal) (o o' : VCObs) (h : obsOf c o) (h' : obsOf c o') :
    o = o' := by
  obtain ⟨h1, h2, h3, h4⟩ := h
  obtain ⟨h1', h2', h3', h4'⟩ := h'
  cases o
  cases o'
  simp_all

/-- C8 (amended): `verify_customer` is not idempotent from the first call —
the first call persists refreshed verification flags that can change what
the second call reports — but it is stable from the second call on: across
three consecutive successful calls with no intervening external change,
the second and third calls return the same `{status, issues}` mapping. -/
theorem verify_customer_stable_after_first (cs : List PyVal) (cid : String)
    (n1 n2 n3 : String) (r1 r2 r3 : VCResult) (S1 S2 S3 : List PyVal) :
    verify_customer cs cid n1 = Except.ok (r1, S1) →
    verify_customer S1 cid n2 = Except.ok (r2, S2) →
    verify_customer S2 cid n3 = Except.ok (r3, S3) →
    r2 = r3 := by
  intro h1 h2 h3
  cases hf : get_customer_by_id cs cid with
  | error e =>
      unfold verify_customer at h1
      rw [hf] at h1
      simp [Bind.bind, Except.bind] at h1
  | ok found =>
      cases found with
      | none =>
          rw [verify_customer_notfound cs cid n1 hf] at h1
          simp only [Except.ok.injEq, Prod.mk.injEq] at h1
          rw [← h1.2] at h2
          rw [verify_customer_notfound cs cid n2 hf] at h2
          simp only [Except.ok.injEq, Prod.mk.injEq] at h2
          rw [← h2.2] at h3
          rw [verify_customer_notfound cs cid n3 hf] at h3
          simp only [Except.ok.injEq, Prod.mk.injEq] at h3
          rw [← h2.1, ← h3.1]
      | some c =>
          obtain ⟨o1, _, hr1, c1, hfound1, hobs1⟩ :=
            verify_customer_run cs cid n1 r1 S1 c hf h1
          obtain ⟨o2, hobs2, hr2, c2, hfound2, hobs2b⟩ :=
            verify_customer_run S1 cid n2 r2 S2 c1 hfound1 h2
          obtain ⟨o3, hobs3, hr3, c3, hfound3, hobs3b⟩ :=
            verify_customer_run S2 cid n3 r3 S3 c2 hfound2 h3
          have ho2 : o2 = ⟨decide (r1.overall_status ≠ "failed"), o1.edv, o1.E,
              o1.I⟩ := obsOf_unique c1 o2 _ hobs2 hobs1
          have ho3 : o3 = ⟨decide (r2.overall_status ≠ "failed"), o2.edv, o2.E,
              o2.I⟩ := obsOf_unique c2 o3 _ hobs3 hobs2b
          have hclean : o1.I.any (fun m => strContains m "No email addresses" ||
              strContains m "not found") = false :=
            fgIssuesE_clean (readFg c1) o1.I hobs1.2.2.2
          rw [hr2, hr3, ho3, ho2]
          simp only
          rw [hr2, ho2] at *
          simp only at *
          rw [hr1]
          rw [vcRes_status_stable o1.edv o1.E o1.I hclean o1.D]

/-- The store after the first demonstration `verify_customer` run. -/
def vcS1 : List PyVal := [PyVal.dict
  [("id", PyVal.str "C1"),
   ("email_domain", PyVal.str "b.com"),
   ("email_addresses", PyVal.list [PyVal.str "a@b.com"]),
   ("file_generation", PyVal.dict [("file_path", PyVal.str "p")]),
   ("verification_status", PyVal.dict
     [("domain_verified", PyVal.bool true),
      ("recipients_verified", PyVal.bool true),
      ("file_paths_verified", PyVal.bool true),
      ("last_check", PyVal.str "t1")]),
   ("last_verified", PyVal.str "t1"),
   ("updated_at", PyVal.str "t1")]]

/-- The store after the second demonstration `verify_customer` run. -/
def vcS2 : List PyVal := [PyVal.dict
  [("id", PyVal.str "C1"),
   ("email_domain", PyVal.str "b.com"),
   ("email_addresses", PyVal.list [PyVal.str "a@b.com"]),
   ("file_generation", PyVal.dict [("file_path", PyVal.str "p")]),
   ("verification_status", PyVal.dict
     [("domain_verified", PyVal.bool true),
      ("recipients_verified", PyVal.bool true),
      ("file_paths_verified", PyVal.bool true),
      ("last_check", PyVal.str "t2")]),
   ("last_verified", PyVal.str "t2"),
   ("updated_at", PyVal.str "t2")]]

/-- The store after the third demonstration `verify_customer` run. -/
def vcS3 : List PyVal := [PyVal.dict
  [("id", PyVal.str "C1"),
   ("email_domain", PyVal.str "b.com"),
   ("email_addresses", PyVal.list [PyVal.str "a@b.com"]),
   ("file_generation", PyVal.dict [("file_path", PyVal.str "p")]),
   ("verification_status", PyVal.dict
     [("domain_verified", PyVal.bool true),
      ("recipients_verified", PyVal.bool true),
      ("file_paths_verified", PyVal.bool true),
      ("last_check", PyVal.str "t3")]),
   ("last_verified", PyVal.str "t3"),
   ("updated_at", PyVal.str "t3")]]

theorem verify_customer_stable_after_first_witness :
    (⟨"passed", []⟩ : VCResult) = (⟨"passed", []⟩ : VCResult) :=
  verify_customer_stable_after_first flipDb "C1" "t1" "t2" "t3"
    ⟨"warning", ["Domain not verified: b.com"]⟩ ⟨"passed", []⟩ ⟨"passed", []⟩
    vcS1 vcS2 vcS3 (by rfl) (by rfl) (by rfl)
